import Mathlib

/-!
# Key-value service: retry engine and realtime notifier

A shallow embedding of

* `components/errors/retry.h` (`RetryableWithMax`, `RetryWithMax`, `RetryUntilOk`),
* `components/data/realtime/realtime_notifier_gcp.cc` (`RealtimeNotifierGcp`),
* `components/cloud_config/instance_client_gcp.cc` (the identity getters of
  `GcpInstanceClient`), and
* `components/tools/benchmarks/data_loading_benchmark.cc` (the record callback of
  `BM_LoadDataIntoCache`),

together with the properties proved about them. The serving cache `KeyValueCache` and the
interruptible wait `SleepFor` are used by these files but defined elsewhere; they are
modelled from the specification, and each such definition says so.

Modelling conventions.

* A C++ call with side effects is modelled by the list of effects it performs, in program
  order (a trace), next to the value it returns.
* The collaborators whose code is outside the embedded files (the retried functor, the
  `SleepFor` object, `ExponentialBackoffForRetry`, `absl::Base64Unescape`, the apply callback)
  are parameters of the model.
* Log statements (`LOG`, `VLOG`) are not modelled.
* The loop counter `int i` of `RetryableWithMax::operator()` is modelled twice. In
  `RetryableWithMax.loop` it is an unbounded natural number; this is the loop of the source
  as long as the counter stays below `2^31`. In `RetryableWithMax.loopInt32` it is a 32-bit
  two's complement integer whose increment wraps around, which is what the compiled loop
  does when `++i` overflows (in C++ that overflow is undefined behaviour). The two loops
  agree on every bounded run with `max_attempts < 2^31 - 1` (`loopInt32_eq_loop`); they
  differ at `max_attempts = 2^31 - 1`, where the exit test `i <= max_attempts_` holds for
  every `int`.
-/

namespace kv_server

/-! ## Status values (`absl::Status`, `absl::StatusOr<T>`) -/

/-- The non-OK canonical codes of `absl::StatusCode`. -/
inductive ErrorCode where
  | cancelled
  | unknown
  | invalidArgument
  | deadlineExceeded
  | notFound
  | alreadyExists
  | permissionDenied
  | resourceExhausted
  | failedPrecondition
  | aborted
  | outOfRange
  | unimplemented
  | internal
  | unavailable
  | dataLoss
  | unauthenticated
  deriving DecidableEq, Repr

/-- An `absl::Status`: OK, or an error code with a message. -/
inductive Status where
  | ok
  | error (code : ErrorCode) (message : String)
  deriving DecidableEq, Repr

/-- The C++ `Status::ok()`. -/
def Status.isOk : Status → Bool
  | .ok => true
  | .error _ _ => false

/-- The C++ `Status::Update`: keeps the receiver unless the receiver is OK. -/
def Status.Update (self new_status : Status) : Status :=
  match self with
  | .ok => new_status
  | .error c m => .error c m

/-- An `absl::StatusOr<T>`: a value, or a non-OK status. With `α := Unit` this is also the
model of a plain `absl::Status` returned by a retried functor. -/
inductive StatusOr (α : Type) where
  | value (v : α)
  | error (code : ErrorCode) (message : String)
  deriving DecidableEq, Repr

/-- The C++ `StatusOr::ok()`. -/
def StatusOr.isOk {α : Type} : StatusOr α → Bool
  | .value _ => true
  | .error _ _ => false

/-- The C++ `StatusOr::status()` (`ToStatus` of `RetryableWithMax`). -/
def StatusOr.status {α : Type} : StatusOr α → Status
  | .value _ => .ok
  | .error c m => .error c m

/-- A non-OK status such as `absl::CancelledError(message)`, converted to the `StatusOr<T>`
that a function returns. -/
def StatusOr.ofError {α : Type} (code : ErrorCode) (message : String) : StatusOr α :=
  .error code message

/-- The C++ `StatusOr::value()`: defined only on an OK result (the source aborts or throws
otherwise). -/
def StatusOr.value? {α : Type} : StatusOr α → Option α
  | .value v => some v
  | .error _ _ => none

/-! ## Durations -/

/-- An `absl::Duration`: a finite signed number of nanoseconds, or `InfiniteDuration()`. -/
inductive Duration where
  | nanos (n : Int)
  | infinite
  deriving DecidableEq, Repr

/-! ## `components/errors/retry.h` -/

/-- One effect performed by `RetryableWithMax::operator()`. -/
inductive RetryEvent (α : Type) where
  /-- The call `func_()` and what it returned. -/
  | call (result : StatusOr α)
  /-- The call `metrics_recorder_->IncrementEventStatus(task_name_, status)`. -/
  | incrementEventStatus (task_name : String) (status : Status)
  /-- The call `sleep_for_.Duration(backoff)`. -/
  | sleep (backoff : Duration)
  deriving DecidableEq, Repr

/-- Number of invocations of `func_` in a trace. -/
def invocations {α : Type} : List (RetryEvent α) → Nat
  | [] => 0
  | .call _ :: tr => invocations tr + 1
  | .incrementEventStatus _ _ :: tr => invocations tr
  | .sleep _ :: tr => invocations tr

/-- The durations passed to `sleep_for_.Duration`, in the order of the calls. -/
def waits {α : Type} : List (RetryEvent α) → List Duration
  | [] => []
  | .call _ :: tr => waits tr
  | .incrementEventStatus _ _ :: tr => waits tr
  | .sleep d :: tr => d :: waits tr

/-- The class `RetryableWithMax<Func>`.

* `func_ k` is what the `k`-th invocation of the functor returns (`k = 1, 2, ...`);
* `metrics_recorder_` is `true` iff the recorder pointer is not null;
* `sleep_for_ k d` is what the `k`-th call `sleep_for_.Duration(d)` returns: `true` when the
  whole duration was slept, `false` when the wait was stopped;
* `ExponentialBackoffForRetry` is the function of that name, declared in `retry.h` and defined
  elsewhere;
* `default_result` is the default-constructed `std::invoke_result_t<Func>`. -/
structure RetryableWithMax (α : Type) where
  func_ : Nat → StatusOr α
  task_name_ : String
  max_attempts_ : Int
  metrics_recorder_ : Bool
  sleep_for_ : Nat → Duration → Bool
  ExponentialBackoffForRetry : Nat → Duration
  default_result : StatusOr α

/-- The constant `RetryableWithMax::kUnlimitedRetry`. -/
def kUnlimitedRetry : Int := -1

/-- The constructor of `RetryableWithMax`: `max_attempts <= 0` is stored as
`kUnlimitedRetry`. -/
def RetryableWithMax.new {α : Type} (f : Nat → StatusOr α) (task_name : String)
    (max_attempts : Int) (metrics_recorder : Bool) (sleep_for : Nat → Duration → Bool)
    (backoff : Nat → Duration) (default_result : StatusOr α) : RetryableWithMax α where
  func_ := f
  task_name_ := task_name
  max_attempts_ := if max_attempts ≤ 0 then kUnlimitedRetry else max_attempts
  metrics_recorder_ := metrics_recorder
  sleep_for_ := sleep_for
  ExponentialBackoffForRetry := backoff
  default_result := default_result

/-- The `for` loop of `RetryableWithMax::operator()`, from the evaluation of its condition
with counter `i`, current `result` and the trace `tr` of the effects performed so far.
Every evaluation of the loop condition uses one unit of `fuel`; `none` means the fuel ran
out before the loop returned. -/
def RetryableWithMax.loop {α : Type} (r : RetryableWithMax α) :
    Nat → Nat → StatusOr α → List (RetryEvent α) → Option (StatusOr α × List (RetryEvent α))
  | 0, _, _, _ => none
  | fuel + 1, i, result, tr =>
    if r.max_attempts_ = kUnlimitedRetry ∨ (i : Int) ≤ r.max_attempts_ then
      let result := r.func_ (invocations tr + 1)
      let tr := tr ++ [RetryEvent.call result]
      let tr := if r.metrics_recorder_ then
          tr ++ [RetryEvent.incrementEventStatus r.task_name_ result.status]
        else tr
      if result.isOk then
        some (result, tr)
      else
        let backoff := r.ExponentialBackoffForRetry i
        let tr := tr ++ [RetryEvent.sleep backoff]
        if !r.sleep_for_ (waits tr).length backoff then
          some (StatusOr.ofError .cancelled "SleepFor cancelled for retries.", tr)
        else
          r.loop fuel (i + 1) result tr
    else
      some (result, tr)

/-- The method `RetryableWithMax::operator()`: the returned value and the trace of effects. -/
def RetryableWithMax.run {α : Type} (r : RetryableWithMax α) (fuel : Nat) :
    Option (StatusOr α × List (RetryEvent α)) :=
  r.loop fuel 1 r.default_result []

/-- The function `RetryWithMax`. -/
def RetryWithMax {α : Type} (f : Nat → StatusOr α) (task_name : String) (max_attempts : Int)
    (metrics_recorder : Bool) (sleep_for : Nat → Duration → Bool) (backoff : Nat → Duration)
    (default_result : StatusOr α) (fuel : Nat) :
    Option (StatusOr α × List (RetryEvent α)) :=
  (RetryableWithMax.new f task_name max_attempts metrics_recorder sleep_for backoff
    default_result).run fuel

/-- The function `RetryUntilOk` for functors returning `absl::StatusOr<T>`: the unlimited
run followed by `.value()`. The result is `none` when the fuel runs out and `some none` when
`.value()` is called on a non-OK result. -/
def RetryUntilOk {α : Type} (f : Nat → StatusOr α) (task_name : String)
    (metrics_recorder : Bool) (sleep_for : Nat → Duration → Bool) (backoff : Nat → Duration)
    (default_result : StatusOr α) (fuel : Nat) :
    Option (Option α × List (RetryEvent α)) :=
  match (RetryableWithMax.new f task_name kUnlimitedRetry metrics_recorder sleep_for backoff
    default_result).run fuel with
  | none => none
  | some (result, tr) => some (result.value?, tr)

/-! ### Sample collaborators, used to instantiate the theorems -/

/-- A functor that fails with `Unavailable` on every invocation. -/
def alwaysUnavailable : Nat → StatusOr Nat :=
  fun _ => StatusOr.error .unavailable "backend down"

/-- A functor that fails with `Unavailable` on its first `n` invocations and returns `42`
afterwards. -/
def failsThenOk (n : Nat) : Nat → StatusOr Nat :=
  fun k => if k ≤ n then StatusOr.error .unavailable "backend down" else StatusOr.value 42

/-- A `SleepFor` that is never stopped: every wait is slept in full. -/
def neverStopped : Nat → Duration → Bool := fun _ _ => true

/-- A `SleepFor` that is stopped during its `k`-th wait: the waits before the `k`-th are
slept in full, the `k`-th and all later ones report that they were stopped. -/
def stoppedDuring (k : Nat) : Nat → Duration → Bool := fun j _ => decide (j < k)

/-- A sample backoff schedule: `2 ^ retries` seconds. -/
def doublingBackoff : Nat → Duration := fun retries => Duration.nanos (2 ^ retries * 1000000000)

/-- The default-constructed `absl::StatusOr<T>`, which holds an `Unknown` status. -/
def defaultStatusOr {α : Type} : StatusOr α := StatusOr.error .unknown ""

/-- The effects of the `k`-th invocation of the functor up to the test `result.ok()`: the
call itself and, when a metrics recorder is present, the recording of its status. -/
def RetryableWithMax.attempt {α : Type} (r : RetryableWithMax α) (k : Nat) :
    List (RetryEvent α) :=
  RetryEvent.call (r.func_ k) ::
    (if r.metrics_recorder_ then
      [RetryEvent.incrementEventStatus r.task_name_ (r.func_ k).status]
    else [])

/-- The effects of the loop iterations `c + 1, ..., c + j` when each of them runs to the end
of the loop body: the attempt followed by the backoff wait. -/
def RetryableWithMax.rounds {α : Type} (r : RetryableWithMax α) : Nat → Nat →
    List (RetryEvent α)
  | _, 0 => []
  | c, j + 1 =>
    (r.attempt (c + 1) ++ [RetryEvent.sleep (r.ExponentialBackoffForRetry (c + 1))]) ++
      r.rounds (c + 1) j

/-- Whether the last effect of a trace is a call of `sleep_for_.Duration`. -/
def endsWithSleep {α : Type} (tr : List (RetryEvent α)) : Bool :=
  match tr.getLast? with
  | some (.sleep _) => true
  | _ => false

/-! ## `components/data/realtime/realtime_notifier_gcp.cc` -/

/-- The metric name `kReceivedLowLatencyNotifications`. -/
def kReceivedLowLatencyNotifications : String := "ReceivedLowLatencyNotifications"

/-- The metric name `kReceivedLowLatencyNotificationsE2E`. -/
def kReceivedLowLatencyNotificationsE2E : String := "ReceivedLowLatencyNotificationsE2E"

/-- The metric name `kReceivedLowLatencyNotificationsE2EGcpProvided`. -/
def kReceivedLowLatencyNotificationsE2EGcpProvided : String :=
  "ReceivedLowLatencyNotificationsE2EGcpProvided"

/-- The metric name `kRealtimeDecodeRealtimeMessageFailure`. -/
def kRealtimeDecodeRealtimeMessageFailure : String := "RealtimeDecodeRealtimeMessageFailure"

/-- The metric name `kRealtimeRealtimeMessageApplicationFailure`. -/
def kRealtimeRealtimeMessageApplicationFailure : String :=
  "kRealtimeRealtimeMessageApplicationFailure"

/-- The metric name `kRealtimeTotalRowsUpdated`. -/
def kRealtimeTotalRowsUpdated : String := "RealtimeTotalRowsUpdated"

/-- The result of the apply callback. The struct is declared outside the embedded files; its
two counters are modelled as integers and their sum is exact. -/
structure DataLoadingStats where
  total_updated_records : Int
  total_deleted_records : Int
  deriving DecidableEq, Repr

/-- What `OnMessageReceived` reads of a `pubsub::Message`: the payload `data()`, the lookup
`attributes().find(name)` and `publish_time()` in nanoseconds since the epoch. -/
structure Message where
  data : String
  attributes : String → Option String
  publish_time : Int

/-- One effect performed by `OnMessageReceived`. -/
inductive NotifierEvent where
  /-- The call `metrics_recorder_.IncrementEventCounter(name)`. -/
  | incrementEventCounter (name : String)
  /-- The call `metrics_recorder_.IncrementEventStatus(name, status, count)`. -/
  | incrementEventStatus (name : String) (status : Status) (count : Int)
  /-- The call `metrics_recorder_.RecordHistogramEvent(name, value)`. -/
  | recordHistogramEvent (name : String) (value : Int)
  /-- The destructor of the `ScopeLatencyRecorder` constructed with `name`. -/
  | scopeLatency (name : String)
  /-- The call `callback(string_decoded)`. -/
  | callback (string_decoded : String)
  /-- The call `std::move(h).ack()`. -/
  | ack
  deriving DecidableEq, Repr

/-- The collaborators of `OnMessageReceived` that are library code:
`absl::Base64Unescape` (`none` when it returns `false`), `absl::SimpleAtoi` to an `int64_t`
(`none` when it returns `false`), and the two readings of `absl::Now()`, in nanoseconds since
the epoch, taken by the two latency recorders. -/
structure MessageEnv where
  Base64Unescape : String → Option String
  SimpleAtoi : String → Option Int
  now_gcp : Int
  now_producer : Int

/-- The function `absl::ToInt64Microseconds` on a duration given in nanoseconds: the quotient
by 1000 truncated towards zero. -/
def ToInt64Microseconds (nanos : Int) : Int := Int.tdiv nanos 1000

/-- The method `RecordGcpSuppliedE2ELatency`. -/
def RecordGcpSuppliedE2ELatency (env : MessageEnv) (m : Message) : List NotifierEvent :=
  [NotifierEvent.recordHistogramEvent kReceivedLowLatencyNotificationsE2EGcpProvided
    (ToInt64Microseconds (env.now_gcp - m.publish_time))]

/-- The method `RecordProducerSuppliedE2ELatency`. -/
def RecordProducerSuppliedE2ELatency (env : MessageEnv) (m : Message) : List NotifierEvent :=
  match m.attributes "time_sent" with
  | none => []
  | some time_sent =>
    if time_sent = "" then []
    else
      match env.SimpleAtoi time_sent with
      | none => []
      | some value_int64 =>
        [NotifierEvent.recordHistogramEvent kReceivedLowLatencyNotificationsE2E
          (ToInt64Microseconds (env.now_producer - value_int64))]

/-- The method `OnMessageReceived`. The callback may read and change state of its own (the
cache it closes over); `σ` is the type of that state, and the method returns the trace of
its effects together with the state the callback left. -/
def OnMessageReceived {σ : Type} (env : MessageEnv) (m : Message)
    (callback : String → σ → StatusOr DataLoadingStats × σ) (s : σ) :
    List NotifierEvent × σ :=
  match env.Base64Unescape m.data with
  | none =>
    ([NotifierEvent.incrementEventCounter kRealtimeDecodeRealtimeMessageFailure,
      NotifierEvent.ack,
      NotifierEvent.scopeLatency kReceivedLowLatencyNotifications], s)
  | some string_decoded =>
    let count := callback string_decoded s
    let recorded :=
      match count.1 with
      | StatusOr.value stats =>
        [NotifierEvent.incrementEventStatus kRealtimeTotalRowsUpdated count.1.status
          (stats.total_updated_records + stats.total_deleted_records)]
      | StatusOr.error _ _ =>
        [NotifierEvent.incrementEventCounter kRealtimeRealtimeMessageApplicationFailure]
    (NotifierEvent.callback string_decoded :: recorded ++
      RecordGcpSuppliedE2ELatency env m ++ RecordProducerSuppliedE2ELatency env m ++
      [NotifierEvent.ack, NotifierEvent.scopeLatency kReceivedLowLatencyNotifications],
     count.2)

/-- Number of acknowledgements in a trace. -/
def acks (tr : List NotifierEvent) : Nat := tr.count NotifierEvent.ack

/-- The arguments of the calls of the apply callback in a trace, in order. -/
def callbackCalls : List NotifierEvent → List String
  | [] => []
  | .callback d :: tr => d :: callbackCalls tr
  | .incrementEventCounter _ :: tr => callbackCalls tr
  | .incrementEventStatus _ _ _ :: tr => callbackCalls tr
  | .recordHistogramEvent _ _ :: tr => callbackCalls tr
  | .scopeLatency _ :: tr => callbackCalls tr
  | .ack :: tr => callbackCalls tr

/-- Number of calls `IncrementEventCounter(name)` in a trace. -/
def counterIncrements (name : String) (tr : List NotifierEvent) : Nat :=
  tr.count (NotifierEvent.incrementEventCounter name)

/-- The `(status, count)` arguments of the calls `IncrementEventStatus(name, status, count)`
in a trace, in order. -/
def statusIncrements (name : String) : List NotifierEvent → List (Status × Int)
  | [] => []
  | .incrementEventStatus n st c :: tr =>
    if n = name then (st, c) :: statusIncrements name tr else statusIncrements name tr
  | .callback _ :: tr => statusIncrements name tr
  | .incrementEventCounter _ :: tr => statusIncrements name tr
  | .recordHistogramEvent _ _ :: tr => statusIncrements name tr
  | .scopeLatency _ :: tr => statusIncrements name tr
  | .ack :: tr => statusIncrements name tr

/-- A sample `Base64Unescape`, defined on two payloads only. -/
def sampleBase64Unescape : String → Option String := fun data =>
  if data = "aGVsbG8=" then some "hello"
  else if data = "d29ybGQ=" then some "world"
  else none

/-- A sample library environment. -/
def sampleMessageEnv : MessageEnv where
  Base64Unescape := sampleBase64Unescape
  SimpleAtoi := fun text => if text = "1000" then some 1000 else none
  now_gcp := 5000000
  now_producer := 6000000

/-- A sample message with a decodable payload and a `time_sent` attribute. -/
def sampleMessage : Message where
  data := "aGVsbG8="
  attributes := fun name => if name = "time_sent" then some "1000" else none
  publish_time := 2000000

/-- A sample message whose payload is not base64. -/
def malformedMessage : Message where
  data := "not base64!"
  attributes := fun _ => none
  publish_time := 2000000

/-- A sample apply callback over a state that counts the applied payloads: it updates two
rows and deletes one for the payload `hello` and fails for every other payload. -/
def sampleCallback : String → Nat → StatusOr DataLoadingStats × Nat := fun payload applied =>
  if payload = "hello" then
    (StatusOr.value { total_updated_records := 2, total_deleted_records := 1 }, applied + 1)
  else (StatusOr.error .invalidArgument "Invalid flatbuffer format", applied)

/-! ### The lifecycle method `Stop` -/

/-- Modelled from the spec: the class `SleepFor` (the CancellableWait of the spec), whose code
is in `components/util/sleepfor.h`, outside the embedded files. Its state is whether it has
been interrupted: once interrupted, the instance stays interrupted for the remainder of its
lifetime. -/
structure SleepFor where
  interrupted : Bool
  deriving DecidableEq, Repr

/-- Modelled from the spec: `SleepFor::Stop`, the interrupt of the CancellableWait. It leaves
the wait interrupted, whatever its state was. The status it returns is not described by the
spec and is the parameter `stop_status`, a function of the state before the call. -/
def SleepFor.Stop (stop_status : SleepFor → Status) (self : SleepFor) : Status × SleepFor :=
  (stop_status self, { interrupted := true })

/-- The member `session_`, a `future<cloud::Status>`: whether `valid()` holds, and how many
times `cancel()` has been called on it. -/
structure Session where
  valid : Bool
  cancel_requests : Nat
  deriving DecidableEq, Repr

/-- The state of a `RealtimeNotifierGcp` that `Stop` reads or writes. The thread manager is
declared outside the embedded files; `τ` is the type of its state. -/
structure RealtimeNotifierGcp (τ : Type) where
  thread_manager_ : τ
  session_ : Session
  sleep_for_ : SleepFor
  deriving DecidableEq, Repr

/-- The constructor of `RealtimeNotifierGcp`: the session is default-constructed, hence not
valid, and the thread manager and the wait are the ones handed in. (The two histogram
registrations of the constructor are not part of this state.) -/
def RealtimeNotifierGcp.new {τ : Type} (thread_manager : τ) (sleep_for : SleepFor) :
    RealtimeNotifierGcp τ where
  thread_manager_ := thread_manager
  session_ := { valid := false, cancel_requests := 0 }
  sleep_for_ := sleep_for

/-- The collaborators of `Stop` whose code is outside the embedded files: the status returned
by `SleepFor::Stop`, and `TheadManager::Stop` as a function of the thread manager state. -/
structure StopEnv (τ : Type) where
  sleep_stop_status : SleepFor → Status
  thread_manager_stop : τ → Status × τ

/-- One step of `Stop`. -/
inductive StopEvent where
  /-- The call `session_.cancel()`. -/
  | sessionCancel
  /-- The call `sleep_for_->Stop()`. -/
  | sleepForStop
  /-- The call `thread_manager_->Stop()`. -/
  | threadManagerStop
  deriving DecidableEq, Repr

/-- The method `RealtimeNotifierGcp::Stop`: the returned status, the state it leaves and the
trace of its steps. -/
def RealtimeNotifierGcp.Stop {τ : Type} (env : StopEnv τ) (self : RealtimeNotifierGcp τ) :
    Status × RealtimeNotifierGcp τ × List StopEvent :=
  let cancelled : Session × List StopEvent :=
    if self.session_.valid then
      ({ self.session_ with cancel_requests := self.session_.cancel_requests + 1 },
        [StopEvent.sessionCancel])
    else (self.session_, [])
  let slept := SleepFor.Stop env.sleep_stop_status self.sleep_for_
  let status := slept.1
  let stopped := env.thread_manager_stop self.thread_manager_
  (status.Update stopped.1,
    { thread_manager_ := stopped.2, session_ := cancelled.1, sleep_for_ := slept.2 },
    cancelled.2 ++ [StopEvent.sleepForStop, StopEvent.threadManagerStop])

/-- A sample environment in which both `SleepFor::Stop` and the thread manager stop succeed
and the thread manager has no state. -/
def benignStopEnv : StopEnv Unit where
  sleep_stop_status := fun _ => Status.ok
  thread_manager_stop := fun _ => (Status.ok, ())

/-- The values passed to `RecordHistogramEvent(name, value)` in a trace, in order. -/
def histogramObservations (name : String) : List NotifierEvent → List Int
  | [] => []
  | .recordHistogramEvent n v :: tr =>
    if n = name then v :: histogramObservations name tr else histogramObservations name tr
  | .callback _ :: tr => histogramObservations name tr
  | .incrementEventCounter _ :: tr => histogramObservations name tr
  | .incrementEventStatus _ _ _ :: tr => histogramObservations name tr
  | .scopeLatency _ :: tr => histogramObservations name tr
  | .ack :: tr => histogramObservations name tr

/-- Whether an effect is a call of the metrics recorder made by the handler itself
(`IncrementEventCounter`, `IncrementEventStatus` or `RecordHistogramEvent`), as opposed to the
scope-latency recorder, the callback and the acknowledgement. -/
def NotifierEvent.isMetricCall : NotifierEvent → Bool
  | .incrementEventCounter _ => true
  | .incrementEventStatus _ _ _ => true
  | .recordHistogramEvent _ _ => true
  | .scopeLatency _ => false
  | .callback _ => false
  | .ack => false

/-- A sample message with a decodable payload and no attribute. -/
def plainMessage : Message where
  data := "d29ybGQ="
  attributes := fun _ => none
  publish_time := 2000000

/-- A sample environment for `Stop` over a thread manager whose state is whether its thread
runs: `SleepFor::Stop` fails on a wait that is already interrupted, and the thread manager
stop fails when no thread runs. -/
def strictStopEnv : StopEnv Bool where
  sleep_stop_status := fun wait =>
    if wait.interrupted then Status.error .failedPrecondition "Already stopped" else Status.ok
  thread_manager_stop := fun running =>
    (if running then Status.ok else Status.error .failedPrecondition "Not currently running",
      false)

/-- The position of a step in the teardown order: cancel the session, interrupt the idle
wait, stop the worker thread. -/
def StopEvent.position : StopEvent → Nat
  | .sessionCancel => 0
  | .sleepForStop => 1
  | .threadManagerStop => 2

/-- The `(task_name, status)` arguments of the calls
`metrics_recorder_->IncrementEventStatus(task_name, status)` in a trace, in order. -/
def metricEvents {α : Type} : List (RetryEvent α) → List (String × Status)
  | [] => []
  | .call _ :: tr => metricEvents tr
  | .incrementEventStatus task_name status :: tr => (task_name, status) :: metricEvents tr
  | .sleep _ :: tr => metricEvents tr

/-- Number of invocations of `func_` in a trace that returned a non-OK result. -/
def failedInvocations {α : Type} : List (RetryEvent α) → Nat
  | [] => 0
  | .call result :: tr => (if result.isOk then 0 else 1) + failedInvocations tr
  | .incrementEventStatus _ _ :: tr => failedInvocations tr
  | .sleep _ :: tr => failedInvocations tr

/-! ### The lifecycle methods `Start` and `Watch` -/

/-- How a call of `SleepFor::Duration` ends: the duration elapsed, the wait was interrupted,
or (for an infinite duration on a wait nobody has interrupted yet) the caller stays blocked
in the wait. -/
inductive WaitOutcome where
  | completed
  | interrupted
  | blocked
  deriving DecidableEq, Repr

/-- Modelled from the spec: `SleepFor::Duration`, the wait of the CancellableWait, whose code
is in `components/util/sleepfor.h`, outside the embedded files. On an interrupted instance
every wait returns `interrupted` immediately, without sleeping; otherwise a finite wait
completes and an infinite one blocks until the instance is interrupted. -/
def SleepFor.Duration (self : SleepFor) (d : Duration) : WaitOutcome :=
  if self.interrupted then WaitOutcome.interrupted
  else
    match d with
    | Duration.infinite => WaitOutcome.blocked
    | Duration.nanos _ => WaitOutcome.completed

/-- One step of `Watch`. -/
inductive WatchEvent where
  /-- The assignment `session_ = gcp_subscriber_->Subscribe(...)`. -/
  | subscribe
  /-- The call `sleep_for_->Duration(absl::InfiniteDuration())` and how it ended. -/
  | idleWait (outcome : WaitOutcome)
  deriving DecidableEq, Repr

/-- The method `RealtimeNotifierGcp::Watch`, run by the worker thread: it stores the session
returned by `Subscribe`, a valid future on which nothing has been cancelled, and then waits on
`sleep_for_` for an infinite duration. The result is the state it leaves and the trace of its
steps. -/
def RealtimeNotifierGcp.Watch {τ : Type} (self : RealtimeNotifierGcp τ) :
    RealtimeNotifierGcp τ × List WatchEvent :=
  ({ self with session_ := { valid := true, cancel_requests := 0 } },
    [WatchEvent.subscribe, WatchEvent.idleWait (self.sleep_for_.Duration Duration.infinite)])

/-- The method `RealtimeNotifierGcp::Start`. The thread manager is outside the embedded
files: `thread_manager_start` gives the status `thread_manager_->Start(...)` returns, the
state it leaves, and whether it runs the function it was handed on a worker thread. The
result is the status, the state left, and the trace of the worker, which is `Watch` when the
worker ran and empty otherwise. -/
def RealtimeNotifierGcp.Start {τ : Type} (thread_manager_start : τ → Status × τ × Bool)
    (self : RealtimeNotifierGcp τ) : Status × RealtimeNotifierGcp τ × List WatchEvent :=
  let started := thread_manager_start self.thread_manager_
  let self := { self with thread_manager_ := started.2.1 }
  if started.2.2 then (started.1, self.Watch.1, self.Watch.2)
  else (started.1, self, [])

/-- A call of one of the two lifecycle methods. -/
inductive LifecycleCall where
  | start
  | stop
  deriving DecidableEq, Repr

/-- The state of a notifier after a sequence of lifecycle calls. -/
def RealtimeNotifierGcp.after {τ : Type} (thread_manager_start : τ → Status × τ × Bool)
    (env : StopEnv τ) (self : RealtimeNotifierGcp τ) :
    List LifecycleCall → RealtimeNotifierGcp τ
  | [] => self
  | LifecycleCall.start :: calls =>
    RealtimeNotifierGcp.after thread_manager_start env
      (self.Start thread_manager_start).2.1 calls
  | LifecycleCall.stop :: calls =>
    RealtimeNotifierGcp.after thread_manager_start env (self.Stop env).2.1 calls

/-! ## The serving cache `KeyValueCache`

The class is created in `data_loading_benchmark.cc` (`KeyValueCache::Create`) and used through
the `Cache` interface; its code is in `components/data_server/cache/`, outside the embedded
files, so the definitions of this section follow the specification of the VersionedCache. -/

/-- Modelled from the spec: a `CacheEntry` of the VersionedCache (the class `KeyValueCache`,
whose code is missing): the value, the logical commit time of the mutation that wrote it and
the tombstone flag. -/
structure CacheEntry where
  value : String
  logical_commit_time : Int
  tombstone : Bool
  deriving DecidableEq, Repr

/-- Modelled from the spec: the state of the VersionedCache (`KeyValueCache`, missing), at
most one `CacheEntry` per key. -/
structure KeyValueCache where
  entries : String → Option CacheEntry

/-- Modelled from the spec: `KeyValueCache::Create` (missing), the cache without entries. -/
def KeyValueCache.Create : KeyValueCache where
  entries := fun _ => none

/-- Modelled from the spec: the ordering guard of the VersionedCache (`KeyValueCache`,
missing): an incoming mutation is applied only if its `logical_commit_time` is strictly
greater than the stored one, or if the key has no entry. -/
def KeyValueCache.admits (self : KeyValueCache) (key : String) (logical_commit_time : Int) :
    Bool :=
  match self.entries key with
  | none => true
  | some entry => decide (entry.logical_commit_time < logical_commit_time)

/-- Modelled from the spec: `update(key, value, logical_commit_time)` of the VersionedCache
(`KeyValueCache::UpdateKeyValue`, missing): applies iff the guard admits it, otherwise no-op. -/
def KeyValueCache.UpdateKeyValue (self : KeyValueCache) (key value : String)
    (logical_commit_time : Int) : KeyValueCache :=
  if self.admits key logical_commit_time then
    { entries := fun k =>
        if k = key then
          some { value := value, logical_commit_time := logical_commit_time,
                 tombstone := false }
        else self.entries k }
  else self

/-- Modelled from the spec: `delete(key, logical_commit_time)` of the VersionedCache
(`KeyValueCache::DeleteKey`, missing): the same ordering guard; it writes a tombstone rather
than removing the key. -/
def KeyValueCache.DeleteKey (self : KeyValueCache) (key : String) (logical_commit_time : Int) :
    KeyValueCache :=
  if self.admits key logical_commit_time then
    { entries := fun k =>
        if k = key then
          some { value := "", logical_commit_time := logical_commit_time, tombstone := true }
        else self.entries k }
  else self

/-- Modelled from the spec: `get(keys)` of the VersionedCache
(`KeyValueCache::GetKeyValuePairs`, missing): the mapping from the requested keys that are
present and not tombstoned to their values; other keys are omitted. -/
def KeyValueCache.GetKeyValuePairs (self : KeyValueCache) (key_list : List String) :
    String → Option String := fun k =>
  if k ∈ key_list then
    match self.entries k with
    | some entry => if entry.tombstone then none else some entry.value
    | none => none
  else none

/-- Modelled from the spec: `compact(cutoff)` of the VersionedCache
(`KeyValueCache::RemoveDeletedKeys`, missing): removes the tombstones with time at most the
cutoff and no other entry. -/
def KeyValueCache.RemoveDeletedKeys (self : KeyValueCache) (logical_commit_time : Int) :
    KeyValueCache where
  entries := fun k =>
    match self.entries k with
    | some entry =>
      if entry.tombstone ∧ entry.logical_commit_time ≤ logical_commit_time then none
      else some entry
    | none => none

/-- A mutation of the cache: an update or a delete. -/
inductive Mutation where
  | update (key value : String) (logical_commit_time : Int)
  | delete (key : String) (logical_commit_time : Int)
  deriving DecidableEq, Repr

/-- The key a mutation is about. -/
def Mutation.key : Mutation → String
  | .update key _ _ => key
  | .delete key _ => key

/-- The logical commit time of a mutation. -/
def Mutation.logical_commit_time : Mutation → Int
  | .update _ _ t => t
  | .delete _ t => t

/-- The cache after one mutation. -/
def KeyValueCache.apply (self : KeyValueCache) : Mutation → KeyValueCache
  | .update key value t => self.UpdateKeyValue key value t
  | .delete key t => self.DeleteKey key t

/-- The cache after a sequence of mutations, applied from left to right. -/
def KeyValueCache.applyAll (self : KeyValueCache) : List Mutation → KeyValueCache
  | [] => self
  | m :: ms => (self.apply m).applyAll ms

/-- The logical commit times of the mutations of a sequence that are about `key`. -/
def observedTimes (key : String) (ms : List Mutation) : List Int :=
  (ms.filter (fun m => m.key = key)).map Mutation.logical_commit_time

/-! ## `components/cloud_config/instance_client_gcp.cc` -/

/-- The label name `kEnvironment`. -/
def kEnvironment : String := "environment"

/-- The label name `kShardNumberLabel`. -/
def kShardNumberLabel : String := "shard-num"

/-- What the client reads of an `ExecutionResult` of the SCP library: `Successful()` and
`GetErrorMessage(status_code)`. -/
structure ExecutionResult where
  successful : Bool
  error_message : String
  deriving DecidableEq, Repr

/-- What an asynchronous call of the SCP instance client does: the result the call itself
returns, and the arguments with which it invokes the callback it was handed (`none` when it
never invokes the callback). -/
structure AsyncCall (ρ : Type) where
  result : ExecutionResult
  callback : Option (ExecutionResult × ρ)

/-- What the client reads of `response.instance_details()`: the instance id and the lookup
of a label (`none` when the label is absent). -/
structure InstanceDetails where
  instance_id : String
  labels : String → Option String

/-- The SCP instance client, a library: what `GetCurrentInstanceResourceName` does, and what
`GetInstanceDetailsByResourceName` does for a given resource name. -/
structure InstanceClientInterface where
  GetCurrentInstanceResourceName : AsyncCall String
  GetInstanceDetailsByResourceName : String → AsyncCall InstanceDetails

/-- The members of `GcpInstanceClient` that the getters read and `GetInstanceDetails`
writes. -/
structure GcpInstanceClient where
  instance_id_ : String
  environment_ : String
  shard_number_ : String
  deriving DecidableEq, Repr

/-- The method `GetResourceName`. The result is `none` when the method does not return: the
call was accepted and `done.WaitForNotification()` waits for a callback that never comes. -/
def GcpInstanceClient.GetResourceName (instance_client : InstanceClientInterface) :
    Option (StatusOr String) :=
  let call := instance_client.GetCurrentInstanceResourceName
  let resource_name : String :=
    match call.callback with
    | some (result, response) => if result.successful then response else ""
    | none => ""
  if !call.result.successful then
    some (StatusOr.ofError .internal call.result.error_message)
  else
    match call.callback with
    | none => none
    | some _ =>
      if resource_name = "" then
        some (StatusOr.ofError .internal "Failed to fetch instance resource name.")
      else some (StatusOr.value resource_name)

/-- The method `GetInstanceDetails`: the status it returns and the members it leaves. The
result is `none` when the method does not return: `GetResourceName` does not return, the
callback is never invoked (`done.WaitForNotification()` waits forever), or the callback
aborts in `labels().at(...)` on an absent label. -/
def GcpInstanceClient.GetInstanceDetails (instance_client : InstanceClientInterface)
    (self : GcpInstanceClient) : Option (Status × GcpInstanceClient) :=
  match GcpInstanceClient.GetResourceName instance_client with
  | none => none
  | some (StatusOr.error code message) => some (Status.error code message, self)
  | some (StatusOr.value resource_name) =>
    let call := instance_client.GetInstanceDetailsByResourceName resource_name
    let status : Status :=
      if call.result.successful then Status.ok
      else Status.error .internal call.result.error_message
    match call.callback with
    | none => none
    | some (result, response) =>
      if result.successful then
        match response.labels kEnvironment, response.labels kShardNumberLabel with
        | some environment, some shard_number =>
          some (status, { instance_id_ := response.instance_id, environment_ := environment,
                          shard_number_ := shard_number })
        | _, _ => none
      else some (status, self)

/-- The method `GetEnvironmentTag`: the result, the members it leaves, and the number of
calls of `GetInstanceDetails` it made; `none` when `GetInstanceDetails` does not return. -/
def GcpInstanceClient.GetEnvironmentTag (instance_client : InstanceClientInterface)
    (self : GcpInstanceClient) : Option (StatusOr String × GcpInstanceClient × Nat) :=
  let looked : Option (Status × GcpInstanceClient × Nat) :=
    if self.environment_ = "" then
      (self.GetInstanceDetails instance_client).map (fun r => (r.1, r.2, 1))
    else some (Status.ok, self, 0)
  match looked with
  | none => none
  | some (Status.error code message, self, lookups) =>
    some (StatusOr.ofError code message, self, lookups)
  | some (Status.ok, self, lookups) =>
    if self.environment_ = "" then
      some (StatusOr.ofError .unavailable "Environment label not found.", self, lookups)
    else some (StatusOr.value self.environment_, self, lookups)

/-- The method `GetShardNumTag`, with the same result as `GetEnvironmentTag`. -/
def GcpInstanceClient.GetShardNumTag (instance_client : InstanceClientInterface)
    (self : GcpInstanceClient) : Option (StatusOr String × GcpInstanceClient × Nat) :=
  let looked : Option (Status × GcpInstanceClient × Nat) :=
    if self.shard_number_ = "" then
      (self.GetInstanceDetails instance_client).map (fun r => (r.1, r.2, 1))
    else some (Status.ok, self, 0)
  match looked with
  | none => none
  | some (Status.error code message, self, lookups) =>
    some (StatusOr.ofError code message, self, lookups)
  | some (Status.ok, self, lookups) =>
    if self.shard_number_ = "" then
      some (StatusOr.ofError .unavailable "Shard number label not found.", self, lookups)
    else some (StatusOr.value self.shard_number_, self, lookups)

/-- The method `GetInstanceId`, with the same result as `GetEnvironmentTag`. -/
def GcpInstanceClient.GetInstanceId (instance_client : InstanceClientInterface)
    (self : GcpInstanceClient) : Option (StatusOr String × GcpInstanceClient × Nat) :=
  let looked : Option (Status × GcpInstanceClient × Nat) :=
    if self.instance_id_ = "" then
      (self.GetInstanceDetails instance_client).map (fun r => (r.1, r.2, 1))
    else some (Status.ok, self, 0)
  match looked with
  | none => none
  | some (Status.error code message, self, lookups) =>
    some (StatusOr.ofError code message, self, lookups)
  | some (Status.ok, self, lookups) =>
    if self.instance_id_ = "" then
      some (StatusOr.ofError .unavailable "Environment label not found.", self, lookups)
    else some (StatusOr.value self.instance_id_, self, lookups)

/-- The three cached identity fields of the client. -/
inductive IdentityField where
  | environment
  | shardNumber
  | instanceId
  deriving DecidableEq, Repr

/-- The member that caches an identity field. -/
def GcpInstanceClient.cached (self : GcpInstanceClient) : IdentityField → String
  | .environment => self.environment_
  | .shardNumber => self.shard_number_
  | .instanceId => self.instance_id_

/-- The getter of an identity field: `GetEnvironmentTag`, `GetShardNumTag` or
`GetInstanceId`. -/
def GcpInstanceClient.getter (instance_client : InstanceClientInterface)
    (self : GcpInstanceClient) :
    IdentityField → Option (StatusOr String × GcpInstanceClient × Nat)
  | .environment => self.GetEnvironmentTag instance_client
  | .shardNumber => self.GetShardNumTag instance_client
  | .instanceId => self.GetInstanceId instance_client

/-- A sample instance client library that resolves the resource name and returns the details
of an instance with both labels. -/
def sampleInstanceClient : InstanceClientInterface where
  GetCurrentInstanceResourceName :=
    { result := { successful := true, error_message := "" },
      callback := some ({ successful := true, error_message := "" },
        "projects/p/zones/z/instances/i") }
  GetInstanceDetailsByResourceName := fun _ =>
    { result := { successful := true, error_message := "" },
      callback := some ({ successful := true, error_message := "" },
        { instance_id := "1234",
          labels := fun name =>
            if name = "environment" then some "prod"
            else if name = "shard-num" then some "0"
            else none }) }

/-- A client that has not looked up its instance details yet. -/
def freshInstanceClient : GcpInstanceClient where
  instance_id_ := ""
  environment_ := ""
  shard_number_ := ""

/-! ## `components/tools/benchmarks/data_loading_benchmark.cc` -/

/-- The enum `DeltaMutationType` of the generated flatbuffers header: `Update`, `Delete`, or
another underlying value found in the buffer. -/
inductive DeltaMutationType where
  | Update
  | Delete
  | other (underlying : Int)
  deriving DecidableEq, Repr

/-- What the record callback reads of a `DeltaFileRecord`, a type of the generated
flatbuffers header, outside the embedded files; the accessors `key()` and `value()` are
taken to point to strings. -/
structure DeltaFileRecord where
  key : String
  value : String
  mutation_type : DeltaMutationType
  logical_commit_time : Int
  deriving DecidableEq, Repr

/-- The flatbuffers functions the record callback uses: `flatbuffers::GetRoot` on the raw
bytes, the schema verification `record->Verify(verifier)` of those bytes, and
`EnumNameDeltaMutationType`. -/
structure Flatbuffers where
  GetRoot : String → DeltaFileRecord
  Verify : String → Bool
  EnumNameDeltaMutationType : DeltaMutationType → String

/-- A call of the `Cache` interface made by the record callback. -/
inductive CacheCall where
  /-- The call `cache->UpdateKeyValue(key, value, logical_commit_time)`. -/
  | UpdateKeyValue (key value : String) (logical_commit_time : Int)
  /-- The call `cache->DeleteKey(key, logical_commit_time)`. -/
  | DeleteKey (key : String) (logical_commit_time : Int)
  deriving DecidableEq, Repr

/-- The record callback that `BM_LoadDataIntoCache` hands to `ReadStreamRecords`: the status
it returns, the calls it makes on the cache, and the counter `num_records_read` it leaves. -/
def BM_LoadDataIntoCache.recordCallback (fb : Flatbuffers) (raw : String)
    (num_records_read : Nat) : Status × List CacheCall × Nat :=
  let num_records_read := num_records_read + 1
  let record := fb.GetRoot raw
  if !fb.Verify raw then
    (Status.error .invalidArgument "Invalid flatbuffer format", [], num_records_read)
  else
    match record.mutation_type with
    | DeltaMutationType.Update =>
      (Status.ok,
        [CacheCall.UpdateKeyValue record.key record.value record.logical_commit_time],
        num_records_read)
    | DeltaMutationType.Delete =>
      (Status.ok, [CacheCall.DeleteKey record.key record.logical_commit_time],
        num_records_read)
    | DeltaMutationType.other underlying =>
      (Status.error .invalidArgument
          ("Invalid mutation type: " ++
            fb.EnumNameDeltaMutationType (DeltaMutationType.other underlying)),
        [], num_records_read)

/-- A sample flatbuffers layer that verifies two raw records only: `raw-update`, an update of
key `k` to `v` at time 7, and `raw-delete`, a delete of key `k` at time 9. -/
def sampleFlatbuffers : Flatbuffers where
  GetRoot := fun raw =>
    if raw = "raw-update" then
      { key := "k", value := "v", mutation_type := DeltaMutationType.Update,
        logical_commit_time := 7 }
    else
      { key := "k", value := "", mutation_type := DeltaMutationType.Delete,
        logical_commit_time := 9 }
  Verify := fun raw => decide (raw = "raw-update" ∨ raw = "raw-delete")
  EnumNameDeltaMutationType := fun t =>
    match t with
    | DeltaMutationType.Update => "Update"
    | DeltaMutationType.Delete => "Delete"
    | DeltaMutationType.other _ => ""

/-! ### `DescribeInstances` -/

/-- The enum `InstanceServiceStatus`, with the four values the embedded file uses. -/
inductive InstanceServiceStatus where
  | kUnknown
  | kPreService
  | kInService
  | kPostService
  deriving DecidableEq, Repr

/-- The struct `InstanceInfo`, declared outside the embedded files, with the members the
embedded file names: `id`, `service_status`, `private_ip_address` and `labels`. -/
structure InstanceInfo where
  id : String
  service_status : InstanceServiceStatus
  private_ip_address : String
  labels : List (String × String)
  deriving DecidableEq, Repr

/-- The method `DescribeInstances`. The initializer `InstanceInfo{.id = *id}` sets `id` and
leaves every other member as in a value-initialized `InstanceInfo`, which is the parameter
`value_initialized`. The result is, as for `GetInstanceId`, the value returned, the members
the client is left with and the number of calls of `GetInstanceDetails`; `none` when
`GetInstanceId` does not return. -/
def GcpInstanceClient.DescribeInstances (instance_client : InstanceClientInterface)
    (value_initialized : InstanceInfo) (self : GcpInstanceClient)
    (_instance_ids : List String) :
    Option (StatusOr (List InstanceInfo) × GcpInstanceClient × Nat) :=
  match self.GetInstanceId instance_client with
  | none => none
  | some (StatusOr.error code message, self, lookups) =>
    some (StatusOr.ofError code message, self, lookups)
  | some (StatusOr.value id, self, lookups) =>
    some (StatusOr.value [{ value_initialized with id := id }], self, lookups)

/-- A value-initialized `InstanceInfo`: empty strings, no labels, and the first value of the
status enum. -/
def emptyInstanceInfo : InstanceInfo where
  id := ""
  service_status := InstanceServiceStatus.kUnknown
  private_ip_address := ""
  labels := []

/-- A sample instance client library whose resource-name call is rejected. -/
def rejectingInstanceClient : InstanceClientInterface where
  GetCurrentInstanceResourceName :=
    { result := { successful := false, error_message := "metadata server unreachable" },
      callback := none }
  GetInstanceDetailsByResourceName := fun _ =>
    { result := { successful := false, error_message := "" }, callback := none }

/-! ### The loop with a 32-bit counter -/

/-- The value of an `int` (32-bit two's complement) that holds the integer `x` after wrapping
around: the representative of `x` modulo `2^32` in `[-2^31, 2^31)`. -/
def wrapInt32 (x : Int) : Int := (x + 2147483648) % 4294967296 - 2147483648

/-- The conversion of an `int` to the `uint32_t` parameter of `ExponentialBackoffForRetry`:
the value modulo `2^32`. -/
def toUint32 (x : Int) : Nat := (x % 4294967296).toNat

/-- The `for` loop of `RetryableWithMax::operator()` with the counter `int i` as a 32-bit
integer: the same loop as `RetryableWithMax.loop`, except that `++i` wraps around and that the
counter is converted to `uint32_t` for `ExponentialBackoffForRetry`. -/
def RetryableWithMax.loopInt32 {α : Type} (r : RetryableWithMax α) :
    Nat → Int → StatusOr α → List (RetryEvent α) → Option (StatusOr α × List (RetryEvent α))
  | 0, _, _, _ => none
  | fuel + 1, i, result, tr =>
    if r.max_attempts_ = kUnlimitedRetry ∨ i ≤ r.max_attempts_ then
      let result := r.func_ (invocations tr + 1)
      let tr := tr ++ [RetryEvent.call result]
      let tr := if r.metrics_recorder_ then
          tr ++ [RetryEvent.incrementEventStatus r.task_name_ result.status]
        else tr
      if result.isOk then
        some (result, tr)
      else
        let backoff := r.ExponentialBackoffForRetry (toUint32 i)
        let tr := tr ++ [RetryEvent.sleep backoff]
        if !r.sleep_for_ (waits tr).length backoff then
          some (StatusOr.ofError .cancelled "SleepFor cancelled for retries.", tr)
        else
          r.loopInt32 fuel (wrapInt32 (i + 1)) result tr
    else
      some (result, tr)

/-- The method `RetryableWithMax::operator()` with the 32-bit counter. -/
def RetryableWithMax.runInt32 {α : Type} (r : RetryableWithMax α) (fuel : Nat) :
    Option (StatusOr α × List (RetryEvent α)) :=
  r.loopInt32 fuel 1 r.default_result []

/-- The function `RetryWithMax` with the 32-bit counter. -/
def RetryWithMaxInt32 {α : Type} (f : Nat → StatusOr α) (task_name : String)
    (max_attempts : Int) (metrics_recorder : Bool) (sleep_for : Nat → Duration → Bool)
    (backoff : Nat → Duration) (default_result : StatusOr α) (fuel : Nat) :
    Option (StatusOr α × List (RetryEvent α)) :=
  (RetryableWithMax.new f task_name max_attempts metrics_recorder sleep_for backoff
    default_result).runInt32 fuel

/-- The constant `INT_MAX`, the largest `int`. -/
def INT_MAX : Int := 2147483647

/-- A sample thread manager start over a state that says whether the thread runs: it fails
when the thread already runs, and otherwise runs the function it was handed on a worker
thread. -/
def spawningThreadManager : Bool → Status × Bool × Bool := fun running =>
  if running then (Status.error .failedPrecondition "Already running", true, false)
  else (Status.ok, true, true)

/-- A sample notifier that was started and then stopped once, over the sample thread
manager: its session is still valid and has been cancelled once, its wait is interrupted and
its thread does not run. -/
def stoppedNotifier : RealtimeNotifierGcp Bool :=
  (RealtimeNotifierGcp.new false { interrupted := false }).after spawningThreadManager
    strictStopEnv [LifecycleCall.start, LifecycleCall.stop]

/-! ### Lemmas on traces -/

theorem invocations_append {α : Type} (a b : List (RetryEvent α)) :
    invocations (a ++ b) = invocations a + invocations b := by
  induction a with
  | nil => simp [invocations]
  | cons e a ih =>
    cases e
    · simp only [List.cons_append, invocations, List.append_eq, ih]; omega
    · simp only [List.cons_append, invocations, List.append_eq, ih]
    · simp only [List.cons_append, invocations, List.append_eq, ih]

theorem waits_append {α : Type} (a b : List (RetryEvent α)) :
    waits (a ++ b) = waits a ++ waits b := by
  induction a with
  | nil => simp [waits]
  | cons e a ih => cases e <;> simp [waits, List.append_eq, ih]

theorem invocations_attempt {α : Type} (r : RetryableWithMax α) (k : Nat) :
    invocations (r.attempt k) = 1 := by
  unfold RetryableWithMax.attempt
  cases r.metrics_recorder_ <;> simp [invocations]

theorem waits_attempt {α : Type} (r : RetryableWithMax α) (k : Nat) :
    waits (r.attempt k) = [] := by
  unfold RetryableWithMax.attempt
  cases r.metrics_recorder_ <;> simp [waits]

theorem rounds_zero {α : Type} (r : RetryableWithMax α) (c : Nat) : r.rounds c 0 = [] := rfl

theorem rounds_succ {α : Type} (r : RetryableWithMax α) (c j : Nat) :
    r.rounds c (j + 1) =
      (r.attempt (c + 1) ++ [RetryEvent.sleep (r.ExponentialBackoffForRetry (c + 1))]) ++
        r.rounds (c + 1) j := rfl

theorem invocations_rounds {α : Type} (r : RetryableWithMax α) (j : Nat) :
    ∀ c, invocations (r.rounds c j) = j := by
  induction j with
  | zero => intro c; rw [rounds_zero]; rfl
  | succ j ih =>
    intro c
    rw [rounds_succ, invocations_append, invocations_append, invocations_attempt, ih]
    simp only [invocations]
    omega

theorem waits_rounds {α : Type} (r : RetryableWithMax α) (j : Nat) :
    ∀ c, waits (r.rounds c j) =
      (List.range j).map (fun t => r.ExponentialBackoffForRetry (c + 1 + t)) := by
  induction j with
  | zero => intro c; rw [rounds_zero]; rfl
  | succ j ih =>
    intro c
    rw [rounds_succ, waits_append, waits_append, waits_attempt, ih, List.range_succ_eq_map]
    simp only [waits, List.nil_append, List.cons_append, List.map_cons, List.map_map,
      Nat.add_zero]
    congr 1
    apply List.map_congr_left
    intro t _
    simp only [Function.comp, Nat.succ_eq_add_one]
    congr 1
    omega

theorem waits_rounds_length {α : Type} (r : RetryableWithMax α) (j c : Nat) :
    (waits (r.rounds c j)).length = j := by
  rw [waits_rounds]
  simp

theorem endsWithSleep_append_sleep {α : Type} (tr : List (RetryEvent α)) (d : Duration) :
    endsWithSleep (tr ++ [RetryEvent.sleep d]) = true := by
  simp [endsWithSleep]

theorem endsWithSleep_rounds {α : Type} (r : RetryableWithMax α) (j : Nat) :
    ∀ c, 0 < j → endsWithSleep (r.rounds c j) = true := by
  induction j with
  | zero => intro c h; omega
  | succ j ih =>
    intro c _
    cases j with
    | zero =>
      rw [rounds_succ, rounds_zero, List.append_nil]
      exact endsWithSleep_append_sleep _ _
    | succ j =>
      have h := ih (c + 1) (Nat.succ_pos j)
      rw [rounds_succ]
      unfold endsWithSleep at h ⊢
      rw [List.getLast?_append]
      cases hl : (r.rounds (c + 1) (j + 1)).getLast? with
      | none => rw [hl] at h; simp at h
      | some e => rw [hl] at h; simpa using h

/-! ### Single steps of the loop -/

theorem loop_exit {α : Type} (r : RetryableWithMax α) (fuel i : Nat) (result : StatusOr α)
    (tr : List (RetryEvent α))
    (hmax : ¬ (r.max_attempts_ = kUnlimitedRetry ∨ (i : Int) ≤ r.max_attempts_)) :
    r.loop (fuel + 1) i result tr = some (result, tr) := by
  simp only [RetryableWithMax.loop, hmax, if_false]

theorem loop_ok {α : Type} (r : RetryableWithMax α) (fuel i : Nat) (result : StatusOr α)
    (tr : List (RetryEvent α))
    (hmax : r.max_attempts_ = kUnlimitedRetry ∨ (i : Int) ≤ r.max_attempts_)
    (hok : (r.func_ (invocations tr + 1)).isOk = true) :
    r.loop (fuel + 1) i result tr =
      some (r.func_ (invocations tr + 1), tr ++ r.attempt (invocations tr + 1)) := by
  simp only [RetryableWithMax.loop, hmax, if_true, hok, RetryableWithMax.attempt]
  cases r.metrics_recorder_ <;> simp

theorem loop_cancelled {α : Type} (r : RetryableWithMax α) (fuel i : Nat)
    (result : StatusOr α) (tr : List (RetryEvent α))
    (hmax : r.max_attempts_ = kUnlimitedRetry ∨ (i : Int) ≤ r.max_attempts_)
    (hfail : (r.func_ (invocations tr + 1)).isOk = false)
    (hstop : r.sleep_for_ ((waits tr).length + 1) (r.ExponentialBackoffForRetry i) = false) :
    r.loop (fuel + 1) i result tr =
      some (StatusOr.ofError .cancelled "SleepFor cancelled for retries.",
        tr ++ (r.attempt (invocations tr + 1) ++
          [RetryEvent.sleep (r.ExponentialBackoffForRetry i)])) := by
  simp only [RetryableWithMax.loop, hmax, if_true, hfail, RetryableWithMax.attempt]
  cases r.metrics_recorder_ <;>
    simp [waits_append, waits, hstop]

theorem loop_continue {α : Type} (r : RetryableWithMax α) (fuel i : Nat)
    (result : StatusOr α) (tr : List (RetryEvent α))
    (hmax : r.max_attempts_ = kUnlimitedRetry ∨ (i : Int) ≤ r.max_attempts_)
    (hfail : (r.func_ (invocations tr + 1)).isOk = false)
    (hslept : r.sleep_for_ ((waits tr).length + 1) (r.ExponentialBackoffForRetry i) = true) :
    r.loop (fuel + 1) i result tr =
      r.loop fuel (i + 1) (r.func_ (invocations tr + 1))
        (tr ++ (r.attempt (invocations tr + 1) ++
          [RetryEvent.sleep (r.ExponentialBackoffForRetry i)])) := by
  simp only [RetryableWithMax.loop, hmax, if_true, hfail, RetryableWithMax.attempt]
  cases r.metrics_recorder_ <;>
    simp [waits_append, waits, hslept]

/-! ### Several failed iterations in a row -/

theorem loop_rounds {α : Type} (r : RetryableWithMax α) :
    ∀ (j fuel c : Nat) (result : StatusOr α) (tr : List (RetryEvent α)),
      invocations tr = c → (waits tr).length = c →
      (∀ k, c < k → k ≤ c + j → (r.func_ k).isOk = false) →
      (∀ k, c < k → k ≤ c + j → r.sleep_for_ k (r.ExponentialBackoffForRetry k) = true) →
      (r.max_attempts_ = kUnlimitedRetry ∨ ((c + j : Nat) : Int) ≤ r.max_attempts_) →
      r.loop (fuel + j) (c + 1) result tr =
        r.loop fuel (c + j + 1) (if j = 0 then result else r.func_ (c + j))
          (tr ++ r.rounds c j) := by
  intro j
  induction j with
  | zero =>
    intro fuel c result tr _ _ _ _ _
    simp [rounds_zero]
  | succ j ih =>
    intro fuel c result tr hi hw hf hs hm
    have hmax1 : r.max_attempts_ = kUnlimitedRetry ∨ ((c + 1 : Nat) : Int) ≤ r.max_attempts_ := by
      rcases hm with h | h
      · exact Or.inl h
      · exact Or.inr (by omega)
    have hfuel : fuel + (j + 1) = (fuel + j) + 1 := by omega
    have hf1 : (r.func_ (invocations tr + 1)).isOk = false := by
      rw [hi]; exact hf (c + 1) (by omega) (by omega)
    have hs1 : r.sleep_for_ ((waits tr).length + 1) (r.ExponentialBackoffForRetry (c + 1)) =
        true := by
      rw [hw]; exact hs (c + 1) (by omega) (by omega)
    rw [hfuel, loop_continue r (fuel + j) (c + 1) result tr hmax1 hf1 hs1, hi]
    have hi2 : invocations (tr ++ (r.attempt (c + 1) ++
        [RetryEvent.sleep (r.ExponentialBackoffForRetry (c + 1))])) = c + 1 := by
      rw [invocations_append, invocations_append, invocations_attempt, hi]
      simp only [invocations]
    have hw2 : (waits (tr ++ (r.attempt (c + 1) ++
        [RetryEvent.sleep (r.ExponentialBackoffForRetry (c + 1))]))).length = c + 1 := by
      rw [waits_append, waits_append, waits_attempt, List.length_append, hw]
      simp only [waits, List.nil_append, List.length_cons, List.length_nil]
    have hm2 : r.max_attempts_ = kUnlimitedRetry ∨ ((c + 1 + j : Nat) : Int) ≤ r.max_attempts_ := by
      rcases hm with h | h
      · exact Or.inl h
      · exact Or.inr (by omega)
    rw [ih fuel (c + 1) _ _ hi2 hw2 (fun k h1 h2 => hf k (by omega) (by omega))
      (fun k h1 h2 => hs k (by omega) (by omega)) hm2]
    have e1 : c + 1 + j = c + (j + 1) := by omega
    rw [rounds_succ, e1, List.append_assoc]
    congr 1
    by_cases hj : j = 0
    · subst hj; simp
    · simp [hj]

/-- The run of `operator()` when the first `j` invocations fail and the waits after them are
slept in full: it reaches the loop condition with counter `j + 1` after the effects
`rounds 0 j`. -/
theorem run_rounds {α : Type} (r : RetryableWithMax α) (j fuel : Nat)
    (hf : ∀ k, 1 ≤ k → k ≤ j → (r.func_ k).isOk = false)
    (hs : ∀ k, 1 ≤ k → k ≤ j → r.sleep_for_ k (r.ExponentialBackoffForRetry k) = true)
    (hm : r.max_attempts_ = kUnlimitedRetry ∨ (j : Int) ≤ r.max_attempts_) :
    r.run (fuel + j) =
      r.loop fuel (j + 1) (if j = 0 then r.default_result else r.func_ j) (r.rounds 0 j) := by
  have h := loop_rounds r j fuel 0 r.default_result [] rfl rfl
    (fun k h1 h2 => hf k (by omega) (by omega)) (fun k h1 h2 => hs k (by omega) (by omega))
    (by simpa using hm)
  simpa [RetryableWithMax.run] using h

theorem endsWithSleep_append_attempt {α : Type} (r : RetryableWithMax α)
    (tr : List (RetryEvent α)) (k : Nat) : endsWithSleep (tr ++ r.attempt k) = false := by
  unfold RetryableWithMax.attempt endsWithSleep
  cases r.metrics_recorder_
  · simp
  · have e : tr ++ RetryEvent.call (r.func_ k) ::
        (if true = true then [RetryEvent.incrementEventStatus r.task_name_ (r.func_ k).status]
          else []) =
        (tr ++ [RetryEvent.call (r.func_ k)]) ++
          [RetryEvent.incrementEventStatus r.task_name_ (r.func_ k).status] := by simp
    rw [e, List.getLast?_append]
    simp

/-! ### Closed forms of the three ways a run ends -/

theorem new_within_bound {α : Type} (f : Nat → StatusOr α) (task_name : String)
    (max_attempts : Int) (metrics_recorder : Bool) (sleep_for : Nat → Duration → Bool)
    (backoff : Nat → Duration) (default_result : StatusOr α) (k j : Nat)
    (hbound : max_attempts ≤ 0 ∨ (k : Int) ≤ max_attempts) (hj : j ≤ k) :
    (RetryableWithMax.new f task_name max_attempts metrics_recorder sleep_for backoff
      default_result).max_attempts_ = kUnlimitedRetry ∨
    (j : Int) ≤ (RetryableWithMax.new f task_name max_attempts metrics_recorder sleep_for
      backoff default_result).max_attempts_ := by
  by_cases h0 : max_attempts ≤ 0
  · left; simp [RetryableWithMax.new, h0]
  · right
    simp only [RetryableWithMax.new, h0, if_false]
    rcases hbound with h | h
    · exact absurd h h0
    · omega

/-- All `n` attempts of a bounded run fail and every wait is slept in full. -/
theorem run_exhausted {α : Type} (r : RetryableWithMax α) (n fuel : Nat)
    (hn : 1 ≤ n) (hmax : r.max_attempts_ = (n : Int))
    (hfail : ∀ k, 1 ≤ k → k ≤ n → (r.func_ k).isOk = false)
    (hslept : ∀ k, 1 ≤ k → k ≤ n → r.sleep_for_ k (r.ExponentialBackoffForRetry k) = true)
    (hfuel : n < fuel) :
    r.run fuel = some (r.func_ n, r.rounds 0 n) := by
  obtain ⟨g, rfl⟩ : ∃ g, fuel = (g + 1) + n := ⟨fuel - n - 1, by omega⟩
  rw [run_rounds r n (g + 1) hfail hslept (Or.inr (by rw [hmax])), loop_exit]
  · have : n ≠ 0 := by omega
    simp [this]
  · rw [hmax]
    simp only [kUnlimitedRetry]
    omega

/-- The attempts `1..c` fail, their waits are slept in full, and attempt `c + 1` succeeds. -/
theorem run_succeeds {α : Type} (r : RetryableWithMax α) (c fuel : Nat)
    (hmax : r.max_attempts_ = kUnlimitedRetry ∨ ((c + 1 : Nat) : Int) ≤ r.max_attempts_)
    (hfail : ∀ j, 1 ≤ j → j ≤ c → (r.func_ j).isOk = false)
    (hok : (r.func_ (c + 1)).isOk = true)
    (hslept : ∀ j, 1 ≤ j → j ≤ c → r.sleep_for_ j (r.ExponentialBackoffForRetry j) = true)
    (hfuel : c < fuel) :
    r.run fuel = some (r.func_ (c + 1), r.rounds 0 c ++ r.attempt (c + 1)) := by
  obtain ⟨g, rfl⟩ : ∃ g, fuel = (g + 1) + c := ⟨fuel - c - 1, by omega⟩
  have hmax0 : r.max_attempts_ = kUnlimitedRetry ∨ (c : Int) ≤ r.max_attempts_ := by
    rcases hmax with h | h
    · exact Or.inl h
    · exact Or.inr (by omega)
  rw [run_rounds r c (g + 1) hfail hslept hmax0]
  have hi := invocations_rounds r c 0
  rw [loop_ok r g (c + 1) _ _ hmax (by rw [hi]; exact hok), hi]

/-- The attempts `1..c + 1` fail, the waits after the attempts `1..c` are slept in full and
the wait after attempt `c + 1` is stopped. -/
theorem run_cancelled {α : Type} (r : RetryableWithMax α) (c fuel : Nat)
    (hmax : r.max_attempts_ = kUnlimitedRetry ∨ ((c + 1 : Nat) : Int) ≤ r.max_attempts_)
    (hfail : ∀ j, 1 ≤ j → j ≤ c + 1 → (r.func_ j).isOk = false)
    (hslept : ∀ j, 1 ≤ j → j ≤ c → r.sleep_for_ j (r.ExponentialBackoffForRetry j) = true)
    (hstopped : r.sleep_for_ (c + 1) (r.ExponentialBackoffForRetry (c + 1)) = false)
    (hfuel : c < fuel) :
    r.run fuel = some (StatusOr.ofError .cancelled "SleepFor cancelled for retries.",
      r.rounds 0 c ++ (r.attempt (c + 1) ++
        [RetryEvent.sleep (r.ExponentialBackoffForRetry (c + 1))])) := by
  obtain ⟨g, rfl⟩ : ∃ g, fuel = (g + 1) + c := ⟨fuel - c - 1, by omega⟩
  have hmax0 : r.max_attempts_ = kUnlimitedRetry ∨ (c : Int) ≤ r.max_attempts_ := by
    rcases hmax with h | h
    · exact Or.inl h
    · exact Or.inr (by omega)
  rw [run_rounds r c (g + 1) (fun j h1 h2 => hfail j h1 (by omega)) hslept hmax0]
  have hi := invocations_rounds r c 0
  have hw := waits_rounds_length r c 0
  rw [loop_cancelled r g (c + 1) _ _ hmax
    (by rw [hi]; exact hfail (c + 1) (by omega) (Nat.le_refl _))
    (by rw [hw]; exact hstopped), hi]

theorem new_max_attempts_pos {α : Type} (f : Nat → StatusOr α) (task_name : String)
    (n : Nat) (metrics_recorder : Bool) (sleep_for : Nat → Duration → Bool)
    (backoff : Nat → Duration) (default_result : StatusOr α) (hn : 1 ≤ n) :
    (RetryableWithMax.new f task_name (n : Int) metrics_recorder sleep_for backoff
      default_result).max_attempts_ = (n : Int) := by
  have : ¬ ((n : Int) ≤ 0) := by omega
  simp [RetryableWithMax.new, this]

/-! ### The 32-bit counter -/

theorem wrapInt32_range (x : Int) : -2147483648 ≤ wrapInt32 x ∧ wrapInt32 x < 2147483648 := by
  unfold wrapInt32
  omega

theorem wrapInt32_of_range (x : Int) (h1 : -2147483648 ≤ x) (h2 : x < 2147483648) :
    wrapInt32 x = x := by
  unfold wrapInt32
  omega

theorem toUint32_of_nat (i : Nat) (h : i < 4294967296) : toUint32 (i : Int) = i := by
  unfold toUint32
  omega

/-- With `max_attempts_ = INT_MAX`, a functor that always fails and a wait that is never
stopped, the loop with the 32-bit counter never returns: its exit test holds for every
`int`. -/
theorem loopInt32_never_exits {α : Type} (r : RetryableWithMax α)
    (hmax : r.max_attempts_ = INT_MAX)
    (hfail : ∀ k, (r.func_ k).isOk = false)
    (hslept : ∀ k d, r.sleep_for_ k d = true) :
    ∀ (fuel : Nat) (i : Int) (result : StatusOr α) (tr : List (RetryEvent α)),
      -2147483648 ≤ i → i < 2147483648 → r.loopInt32 fuel i result tr = none := by
  intro fuel
  induction fuel with
  | zero => intro i result tr _ _; rfl
  | succ fuel ih =>
    intro i result tr h1 h2
    have hcond : r.max_attempts_ = kUnlimitedRetry ∨ i ≤ r.max_attempts_ := by
      right
      rw [hmax]
      simp only [INT_MAX]
      omega
    simp only [RetryableWithMax.loopInt32, hcond, if_true, hfail, hslept]
    exact ih _ _ _ (wrapInt32_range _).1 (wrapInt32_range _).2

/-- On a bounded run with `max_attempts_ = n < INT_MAX` the loop with the 32-bit counter is
the loop with the unbounded counter: the counter never exceeds `n + 1`. -/
theorem loopInt32_eq_loop {α : Type} (r : RetryableWithMax α) (n : Nat)
    (hmax : r.max_attempts_ = (n : Int)) (hn : n < 2147483647) :
    ∀ (fuel i : Nat) (result : StatusOr α) (tr : List (RetryEvent α)),
      i ≤ n + 1 → r.loopInt32 fuel (i : Int) result tr = r.loop fuel i result tr := by
  intro fuel
  induction fuel with
  | zero => intro i result tr _; rfl
  | succ fuel ih =>
    intro i result tr hi
    by_cases hcond : r.max_attempts_ = kUnlimitedRetry ∨ (i : Int) ≤ r.max_attempts_
    · have hin : i ≤ n := by
        rcases hcond with h | h
        · rw [hmax] at h
          simp only [kUnlimitedRetry] at h
          omega
        · rw [hmax] at h
          omega
      have hnext : wrapInt32 ((i : Int) + 1) = ((i + 1 : Nat) : Int) := by
        rw [wrapInt32_of_range _ (by omega) (by omega)]
        omega
      have ih1 : ∀ (result : StatusOr α) (tr : List (RetryEvent α)),
          r.loopInt32 fuel ((i + 1 : Nat) : Int) result tr = r.loop fuel (i + 1) result tr :=
        fun result tr => ih (i + 1) result tr (by omega)
      simp only [RetryableWithMax.loopInt32, RetryableWithMax.loop, hcond, if_true,
        toUint32_of_nat i (by omega), hnext, ih1]
    · simp only [RetryableWithMax.loopInt32, RetryableWithMax.loop, hcond, if_false]

/-- The run of `RetryWithMax` with the 32-bit counter is the run with the unbounded counter
for every `max_attempts = n` with `1 <= n < INT_MAX`. -/
theorem retryWithMaxInt32_eq {α : Type} (f : Nat → StatusOr α) (task_name : String)
    (n : Nat) (metrics_recorder : Bool) (sleep_for : Nat → Duration → Bool)
    (backoff : Nat → Duration) (default_result : StatusOr α) (fuel : Nat)
    (hn : 1 ≤ n) (hint : n < 2147483647) :
    RetryWithMaxInt32 f task_name (n : Int) metrics_recorder sleep_for backoff
        default_result fuel =
      RetryWithMax f task_name (n : Int) metrics_recorder sleep_for backoff
        default_result fuel := by
  unfold RetryWithMaxInt32 RetryWithMax RetryableWithMax.runInt32 RetryableWithMax.run
  exact loopInt32_eq_loop _ n (new_max_attempts_pos f task_name n metrics_recorder sleep_for
    backoff default_result hn) hint fuel 1 _ _ (by omega)

/-- With `max_attempts = INT_MAX`, the sample functor that always fails and a wait that is
never stopped, `RetryWithMax` with the 32-bit counter does not return, whatever the fuel. -/
theorem retryWithMaxInt32_int_max_never_returns (metrics_recorder : Bool) (fuel : Nat) :
    RetryWithMaxInt32 alwaysUnavailable "task" 2147483647 metrics_recorder neverStopped
      doublingBackoff defaultStatusOr fuel = none := by
  unfold RetryWithMaxInt32 RetryableWithMax.runInt32
  exact loopInt32_never_exits
    (RetryableWithMax.new alwaysUnavailable "task" 2147483647 metrics_recorder neverStopped
      doublingBackoff defaultStatusOr)
    (by simp [RetryableWithMax.new, INT_MAX]) (fun _ => rfl) (fun _ _ => rfl) fuel 1 _ _
    (by omega) (by omega)

/-! ## Properties of the retry engine -/

/-- Claim C2, refuted as stated: with `max_attempts = 3`, a functor that always fails and no
wait stopped, the run requests 3 backoff waits, not `3 - 1 = 2`, and its last effect is the
wait that follows the third and final attempt; the loop with the 32-bit counter gives the
same run. Moreover, with `max_attempts = INT_MAX = 2147483647` the run does not stop after
any number of waits: the exit test holds for every value of the `int` counter and no amount
of fuel gives a result. -/
theorem retryWithMax_waits_counterexample :
    (∃ tr, RetryWithMax alwaysUnavailable "task" 3 false neverStopped doublingBackoff
        defaultStatusOr 4 = some (alwaysUnavailable 3, tr) ∧
      RetryWithMaxInt32 alwaysUnavailable "task" 3 false neverStopped doublingBackoff
        defaultStatusOr 4 = some (alwaysUnavailable 3, tr) ∧
      tr = [RetryEvent.call (StatusOr.error .unavailable "backend down"),
            RetryEvent.sleep (Duration.nanos 2000000000),
            RetryEvent.call (StatusOr.error .unavailable "backend down"),
            RetryEvent.sleep (Duration.nanos 4000000000),
            RetryEvent.call (StatusOr.error .unavailable "backend down"),
            RetryEvent.sleep (Duration.nanos 8000000000)] ∧
      (waits tr).length = 3 ∧ (waits tr).length ≠ 3 - 1 ∧ endsWithSleep tr = true) ∧
    (∀ fuel, RetryWithMaxInt32 alwaysUnavailable "task" 2147483647 true neverStopped
      doublingBackoff defaultStatusOr fuel = none) :=
  ⟨⟨_, rfl, rfl, rfl, rfl, by decide, rfl⟩,
    fun fuel => retryWithMaxInt32_int_max_never_returns true fuel⟩

/-- Claim C2, amended. For every `max_attempts = n` with `1 <= n < INT_MAX` and every functor
that fails on each of its first `n` invocations, when no wait is stopped, the run of
`RetryWithMax` consists of `n` rounds, each an attempt followed by a backoff wait: it requests
exactly `n` waits, one after every failed attempt, and the last effect of the run is the wait
that follows the final attempt; this holds for the loop with the unbounded counter and for
the loop with the 32-bit counter alike. -/
theorem retryWithMax_waits {α : Type} (f : Nat → StatusOr α) (task_name : String)
    (n : Nat) (metrics_recorder : Bool) (sleep_for : Nat → Duration → Bool)
    (backoff : Nat → Duration) (default_result : StatusOr α) (fuel : Nat)
    (hn : 1 ≤ n) (hint : n < 2147483647)
    (hfail : ∀ k, 1 ≤ k → k ≤ n → (f k).isOk = false)
    (hslept : ∀ k, 1 ≤ k → k ≤ n → sleep_for k (backoff k) = true)
    (hfuel : n < fuel) :
    ∃ tr, RetryWithMax f task_name (n : Int) metrics_recorder sleep_for backoff
        default_result fuel = some (f n, tr) ∧
      RetryWithMaxInt32 f task_name (n : Int) metrics_recorder sleep_for backoff
        default_result fuel = some (f n, tr) ∧
      tr = (RetryableWithMax.new f task_name (n : Int) metrics_recorder sleep_for backoff
        default_result).rounds 0 n ∧
      invocations tr = n ∧ (waits tr).length = n ∧ endsWithSleep tr = true := by
  have h := run_exhausted _ n fuel hn (new_max_attempts_pos f task_name n metrics_recorder
    sleep_for backoff default_result hn) hfail hslept hfuel
  refine ⟨_, h, ?_, rfl, invocations_rounds _ _ _, waits_rounds_length _ _ _,
    endsWithSleep_rounds _ _ _ (by omega)⟩
  rw [retryWithMaxInt32_eq f task_name n metrics_recorder sleep_for backoff default_result
    fuel hn hint]
  exact h

/-- Instance of the amended claim C2: `max_attempts = 3` gives 3 waits. -/
theorem retryWithMax_waits_witness :
    ∃ tr, RetryWithMax alwaysUnavailable "task" ((3 : Nat) : Int) false neverStopped
        doublingBackoff defaultStatusOr 4 = some (alwaysUnavailable 3, tr) ∧
      RetryWithMaxInt32 alwaysUnavailable "task" ((3 : Nat) : Int) false neverStopped
        doublingBackoff defaultStatusOr 4 = some (alwaysUnavailable 3, tr) ∧
      tr = (RetryableWithMax.new alwaysUnavailable "task" ((3 : Nat) : Int) false neverStopped
        doublingBackoff defaultStatusOr).rounds 0 3 ∧
      invocations tr = 3 ∧ (waits tr).length = 3 ∧ endsWithSleep tr = true :=
  retryWithMax_waits alwaysUnavailable "task" 3 false neverStopped doublingBackoff
    defaultStatusOr 4 (by decide) (by decide) (fun _ _ _ => rfl) (fun _ _ _ => rfl)
    (by decide)

/-- Claim C3. For every `k >= 1` (with `k <= max_attempts` when the attempts are bounded, any
`k` when `max_attempts <= 0`): if the functor fails on its invocations `1..k`, the waits
after the attempts `1..k-1` are slept in full and the wait after attempt `k` reports that it
was stopped, then `RetryableWithMax::operator()` returns the Cancelled failure and the functor
has been invoked exactly `k` times; the last effect of the run is the stopped wait. -/
theorem retry_cancelled_by_stopped_wait {α : Type} (f : Nat → StatusOr α)
    (task_name : String) (max_attempts : Int) (metrics_recorder : Bool)
    (sleep_for : Nat → Duration → Bool) (backoff : Nat → Duration)
    (default_result : StatusOr α) (k fuel : Nat)
    (hk : 1 ≤ k)
    (hbound : max_attempts ≤ 0 ∨ (k : Int) ≤ max_attempts)
    (hfail : ∀ j, 1 ≤ j → j ≤ k → (f j).isOk = false)
    (hslept : ∀ j, 1 ≤ j → j < k → sleep_for j (backoff j) = true)
    (hstopped : sleep_for k (backoff k) = false)
    (hfuel : k ≤ fuel) :
    ∃ tr, (RetryableWithMax.new f task_name max_attempts metrics_recorder sleep_for backoff
        default_result).run fuel =
        some (StatusOr.error .cancelled "SleepFor cancelled for retries.", tr) ∧
      invocations tr = k ∧ (waits tr).length = k ∧ endsWithSleep tr = true := by
  obtain ⟨c, rfl⟩ : ∃ c, k = c + 1 := ⟨k - 1, by omega⟩
  refine ⟨_, run_cancelled _ c fuel (new_within_bound f task_name max_attempts
    metrics_recorder sleep_for backoff default_result (c + 1) (c + 1) hbound (Nat.le_refl _))
    hfail (fun j h1 h2 => hslept j h1 (by omega)) hstopped (by omega), ?_, ?_, ?_⟩
  · rw [invocations_append, invocations_append, invocations_attempt, invocations_rounds]
    simp only [invocations]
  · rw [waits_append, waits_append, waits_attempt, List.length_append, waits_rounds_length]
    simp only [waits, List.nil_append, List.length_cons, List.length_nil]
  · rw [← List.append_assoc]
    exact endsWithSleep_append_sleep _ _

/-- Instance of claim C3: unlimited attempts, the second wait is stopped. -/
theorem retry_cancelled_by_stopped_wait_witness :
    ∃ tr, (RetryableWithMax.new alwaysUnavailable "task" (-1) true (stoppedDuring 2)
        doublingBackoff defaultStatusOr).run 2 =
        some (StatusOr.error .cancelled "SleepFor cancelled for retries.", tr) ∧
      invocations tr = 2 ∧ (waits tr).length = 2 ∧ endsWithSleep tr = true :=
  retry_cancelled_by_stopped_wait alwaysUnavailable "task" (-1) true (stoppedDuring 2)
    doublingBackoff defaultStatusOr 2 2 (by decide) (Or.inl (by decide)) (fun _ _ _ => rfl)
    (fun j _ h2 => by simp [stoppedDuring, h2]) (by decide) (by decide)

/-- Claim C4. For every `k >= 1` within the attempt bound: if the functor fails on its
invocations `1..k-1` and succeeds on invocation `k`, and the waits after the attempts
`1..k-1` are slept in full, then `RetryableWithMax::operator()` returns exactly the result of
invocation `k`, the functor is invoked exactly `k` times, and exactly `k - 1` backoff waits
are requested, none of them after the successful attempt. -/
theorem retry_returns_first_success {α : Type} (f : Nat → StatusOr α)
    (task_name : String) (max_attempts : Int) (metrics_recorder : Bool)
    (sleep_for : Nat → Duration → Bool) (backoff : Nat → Duration)
    (default_result : StatusOr α) (k fuel : Nat)
    (hk : 1 ≤ k)
    (hbound : max_attempts ≤ 0 ∨ (k : Int) ≤ max_attempts)
    (hfail : ∀ j, 1 ≤ j → j < k → (f j).isOk = false)
    (hok : (f k).isOk = true)
    (hslept : ∀ j, 1 ≤ j → j < k → sleep_for j (backoff j) = true)
    (hfuel : k ≤ fuel) :
    ∃ tr, (RetryableWithMax.new f task_name max_attempts metrics_recorder sleep_for backoff
        default_result).run fuel = some (f k, tr) ∧
      invocations tr = k ∧ (waits tr).length = k - 1 ∧ endsWithSleep tr = false := by
  obtain ⟨c, rfl⟩ : ∃ c, k = c + 1 := ⟨k - 1, by omega⟩
  refine ⟨_, run_succeeds _ c fuel (new_within_bound f task_name max_attempts
    metrics_recorder sleep_for backoff default_result (c + 1) (c + 1) hbound (Nat.le_refl _))
    (fun j h1 h2 => hfail j h1 (by omega)) hok (fun j h1 h2 => hslept j h1 (by omega))
    (by omega), ?_, ?_, endsWithSleep_append_attempt _ _ _⟩
  · rw [invocations_append, invocations_attempt, invocations_rounds]
  · rw [waits_append, waits_attempt, List.append_nil, waits_rounds_length]
    simp

/-- Instance of claim C4: at most 5 attempts, two failures, success on the third attempt. -/
theorem retry_returns_first_success_witness :
    ∃ tr, (RetryableWithMax.new (failsThenOk 2) "task" 5 true neverStopped
        doublingBackoff defaultStatusOr).run 3 = some (failsThenOk 2 3, tr) ∧
      invocations tr = 3 ∧ (waits tr).length = 3 - 1 ∧ endsWithSleep tr = false :=
  retry_returns_first_success (failsThenOk 2) "task" 5 true neverStopped doublingBackoff
    defaultStatusOr 3 3 (by decide) (Or.inr (by decide))
    (fun j _ h2 => by
      have h : j ≤ 2 := by omega
      simp [failsThenOk, h, StatusOr.isOk])
    (by decide) (fun _ _ _ => rfl) (by decide)

/-- Claim C5. Every `max_attempts <= 0` is stored as `kUnlimitedRetry` and means unlimited
retries: for every `n >= 0` and every functor that fails on its invocations `1..n` and returns
the value `v` on invocation `n + 1`, when the `n` waits are slept in full, the run returns
that success after exactly `n + 1` invocations; `RetryUntilOk`, the run with
`kUnlimitedRetry` followed by `.value()`, returns `v` with the same effects. -/
theorem retry_unlimited {α : Type} (f : Nat → StatusOr α) (task_name : String)
    (max_attempts : Int) (metrics_recorder : Bool) (sleep_for : Nat → Duration → Bool)
    (backoff : Nat → Duration) (default_result : StatusOr α) (n fuel : Nat) (v : α)
    (hmax : max_attempts ≤ 0)
    (hfail : ∀ j, 1 ≤ j → j ≤ n → (f j).isOk = false)
    (hok : f (n + 1) = StatusOr.value v)
    (hslept : ∀ j, 1 ≤ j → j ≤ n → sleep_for j (backoff j) = true)
    (hfuel : n < fuel) :
    (RetryableWithMax.new f task_name max_attempts metrics_recorder sleep_for backoff
      default_result).max_attempts_ = kUnlimitedRetry ∧
    ∃ tr, (RetryableWithMax.new f task_name max_attempts metrics_recorder sleep_for backoff
        default_result).run fuel = some (StatusOr.value v, tr) ∧
      invocations tr = n + 1 ∧ (waits tr).length = n ∧
      RetryUntilOk f task_name metrics_recorder sleep_for backoff default_result fuel =
        some (some v, tr) := by
  have hnew : RetryableWithMax.new f task_name max_attempts metrics_recorder sleep_for backoff
      default_result = RetryableWithMax.new f task_name kUnlimitedRetry metrics_recorder
      sleep_for backoff default_result := by
    simp [RetryableWithMax.new, hmax, kUnlimitedRetry]
  have hrun := run_succeeds (RetryableWithMax.new f task_name kUnlimitedRetry metrics_recorder
    sleep_for backoff default_result) n fuel
    (Or.inl (by simp [RetryableWithMax.new, kUnlimitedRetry])) hfail
    (by show (f (n + 1)).isOk = true; rw [hok]; rfl) hslept hfuel
  have hval : (RetryableWithMax.new f task_name kUnlimitedRetry metrics_recorder
    sleep_for backoff default_result).func_ (n + 1) = StatusOr.value v := hok
  rw [hval] at hrun
  refine ⟨by simp [RetryableWithMax.new, hmax], _, by rw [hnew]; exact hrun, ?_, ?_, ?_⟩
  · rw [invocations_append, invocations_attempt, invocations_rounds]
  · rw [waits_append, waits_attempt, List.append_nil, waits_rounds_length]
  · unfold RetryUntilOk
    rw [hrun]
    rfl

/-- Instance of claim C5: `max_attempts = -7`, four failures, then the value `42`. -/
theorem retry_unlimited_witness :
    (RetryableWithMax.new (failsThenOk 4) "task" (-7) false neverStopped doublingBackoff
      defaultStatusOr).max_attempts_ = kUnlimitedRetry ∧
    ∃ tr, (RetryableWithMax.new (failsThenOk 4) "task" (-7) false neverStopped doublingBackoff
        defaultStatusOr).run 5 = some (StatusOr.value 42, tr) ∧
      invocations tr = 4 + 1 ∧ (waits tr).length = 4 ∧
      RetryUntilOk (failsThenOk 4) "task" false neverStopped doublingBackoff defaultStatusOr 5 =
        some (some 42, tr) :=
  retry_unlimited (failsThenOk 4) "task" (-7) false neverStopped doublingBackoff
    defaultStatusOr 4 5 42 (by decide)
    (fun j _ h2 => by simp [failsThenOk, h2, StatusOr.isOk])
    (by decide) (fun _ _ _ => rfl) (by decide)

/-! ## Properties of the message handler -/

/-- The producer-supplied latency recorder performs no effect or exactly one histogram
observation. -/
theorem recordProducer_cases (env : MessageEnv) (m : Message) :
    RecordProducerSuppliedE2ELatency env m = [] ∨
    ∃ v, RecordProducerSuppliedE2ELatency env m =
      [NotifierEvent.recordHistogramEvent kReceivedLowLatencyNotificationsE2E v] := by
  unfold RecordProducerSuppliedE2ELatency
  split
  · exact Or.inl rfl
  · split
    · exact Or.inl rfl
    · split
      · exact Or.inl rfl
      · exact Or.inr ⟨_, rfl⟩

/-- The trace of `OnMessageReceived` on a payload that does not decode. -/
theorem onMessageReceived_undecodable {σ : Type} (env : MessageEnv) (m : Message)
    (callback : String → σ → StatusOr DataLoadingStats × σ) (s : σ)
    (h : env.Base64Unescape m.data = none) :
    OnMessageReceived env m callback s =
      ([NotifierEvent.incrementEventCounter kRealtimeDecodeRealtimeMessageFailure,
        NotifierEvent.ack,
        NotifierEvent.scopeLatency kReceivedLowLatencyNotifications], s) := by
  simp only [OnMessageReceived, h]

/-- The trace of `OnMessageReceived` on a payload that decodes, when the callback succeeds. -/
theorem onMessageReceived_applied {σ : Type} (env : MessageEnv) (m : Message)
    (callback : String → σ → StatusOr DataLoadingStats × σ) (s : σ) (d : String)
    (stats : DataLoadingStats)
    (h : env.Base64Unescape m.data = some d) (hc : (callback d s).1 = StatusOr.value stats) :
    OnMessageReceived env m callback s =
      (NotifierEvent.callback d ::
        [NotifierEvent.incrementEventStatus kRealtimeTotalRowsUpdated Status.ok
          (stats.total_updated_records + stats.total_deleted_records)] ++
        RecordGcpSuppliedE2ELatency env m ++ RecordProducerSuppliedE2ELatency env m ++
        [NotifierEvent.ack, NotifierEvent.scopeLatency kReceivedLowLatencyNotifications],
       (callback d s).2) := by
  simp only [OnMessageReceived, h, hc, StatusOr.status]

/-- The trace of `OnMessageReceived` on a payload that decodes, when the callback fails. -/
theorem onMessageReceived_failed {σ : Type} (env : MessageEnv) (m : Message)
    (callback : String → σ → StatusOr DataLoadingStats × σ) (s : σ) (d : String)
    (code : ErrorCode) (msg : String)
    (h : env.Base64Unescape m.data = some d)
    (hc : (callback d s).1 = StatusOr.error code msg) :
    OnMessageReceived env m callback s =
      (NotifierEvent.callback d ::
        [NotifierEvent.incrementEventCounter kRealtimeRealtimeMessageApplicationFailure] ++
        RecordGcpSuppliedE2ELatency env m ++ RecordProducerSuppliedE2ELatency env m ++
        [NotifierEvent.ack, NotifierEvent.scopeLatency kReceivedLowLatencyNotifications],
       (callback d s).2) := by
  simp only [OnMessageReceived, h, hc]

/-- Claim C6. For every delivered message, `OnMessageReceived` acknowledges the message
exactly once, whatever the outcome: the payload is not valid base64, the apply callback
failed, or the apply callback succeeded. -/
theorem onMessageReceived_acks_once {σ : Type} (env : MessageEnv) (m : Message)
    (callback : String → σ → StatusOr DataLoadingStats × σ) (s : σ) :
    acks (OnMessageReceived env m callback s).1 = 1 := by
  cases h : env.Base64Unescape m.data with
  | none =>
    rw [onMessageReceived_undecodable env m callback s h]
    rfl
  | some d =>
    cases hc : (callback d s).1 with
    | value stats =>
      rw [onMessageReceived_applied env m callback s d stats h hc]
      rcases recordProducer_cases env m with hp | ⟨v, hp⟩ <;> rw [hp] <;> rfl
    | error code msg =>
      rw [onMessageReceived_failed env m callback s d code msg h hc]
      rcases recordProducer_cases env m with hp | ⟨v, hp⟩ <;> rw [hp] <;> rfl

/-- Claim C7. For every message whose payload is not valid base64, `OnMessageReceived`
increments the decode-failure counter exactly once, acknowledges the message (once) and does
not invoke the apply callback, whose state is left as it was. -/
theorem onMessageReceived_decode_failure {σ : Type} (env : MessageEnv) (m : Message)
    (callback : String → σ → StatusOr DataLoadingStats × σ) (s : σ)
    (h : env.Base64Unescape m.data = none) :
    counterIncrements kRealtimeDecodeRealtimeMessageFailure
        (OnMessageReceived env m callback s).1 = 1 ∧
      acks (OnMessageReceived env m callback s).1 = 1 ∧
      callbackCalls (OnMessageReceived env m callback s).1 = [] ∧
      (OnMessageReceived env m callback s).2 = s := by
  rw [onMessageReceived_undecodable env m callback s h]
  exact ⟨rfl, rfl, rfl, rfl⟩

/-- Instance of claim C7: a payload that is not base64. -/
theorem onMessageReceived_decode_failure_witness :
    counterIncrements kRealtimeDecodeRealtimeMessageFailure
        (OnMessageReceived sampleMessageEnv malformedMessage sampleCallback 0).1 = 1 ∧
      acks (OnMessageReceived sampleMessageEnv malformedMessage sampleCallback 0).1 = 1 ∧
      callbackCalls (OnMessageReceived sampleMessageEnv malformedMessage sampleCallback 0).1 =
        [] ∧
      (OnMessageReceived sampleMessageEnv malformedMessage sampleCallback 0).2 = 0 :=
  onMessageReceived_decode_failure sampleMessageEnv malformedMessage sampleCallback 0
    (by decide)

/-- Claim C8. For every message whose payload is valid base64, `OnMessageReceived` invokes
the apply callback exactly once, with exactly the base64-decoding of the payload as its
argument, and the state behind the callback (the cache) ends as that one call left it: the
handler changes it in no other way. -/
theorem onMessageReceived_applies_once {σ : Type} (env : MessageEnv) (m : Message)
    (callback : String → σ → StatusOr DataLoadingStats × σ) (s : σ) (d : String)
    (h : env.Base64Unescape m.data = some d) :
    callbackCalls (OnMessageReceived env m callback s).1 = [d] ∧
      (OnMessageReceived env m callback s).2 = (callback d s).2 := by
  cases hc : (callback d s).1 with
  | value stats =>
    rw [onMessageReceived_applied env m callback s d stats h hc]
    refine ⟨?_, rfl⟩
    rcases recordProducer_cases env m with hp | ⟨v, hp⟩ <;> rw [hp] <;> rfl
  | error code msg =>
    rw [onMessageReceived_failed env m callback s d code msg h hc]
    refine ⟨?_, rfl⟩
    rcases recordProducer_cases env m with hp | ⟨v, hp⟩ <;> rw [hp] <;> rfl

/-- Instance of claim C8: the payload `aGVsbG8=` is applied as `hello`. -/
theorem onMessageReceived_applies_once_witness :
    callbackCalls (OnMessageReceived sampleMessageEnv sampleMessage sampleCallback 0).1 =
        ["hello"] ∧
      (OnMessageReceived sampleMessageEnv sampleMessage sampleCallback 0).2 =
        (sampleCallback "hello" 0).2 :=
  onMessageReceived_applies_once sampleMessageEnv sampleMessage sampleCallback 0 "hello"
    (by decide)

/-- Claim C9. For every message whose payload decodes: if the apply callback succeeds with
counts `(u, d)`, the rows-updated metric receives exactly one `IncrementEventStatus` call,
with status OK and count `u + d`, and the application-failure counter is not incremented; if
the callback fails, the application-failure counter is incremented exactly once and the
rows-updated metric receives no call. -/
theorem onMessageReceived_records_outcome {σ : Type} (env : MessageEnv) (m : Message)
    (callback : String → σ → StatusOr DataLoadingStats × σ) (s : σ) (d : String)
    (h : env.Base64Unescape m.data = some d) :
    (∀ stats, (callback d s).1 = StatusOr.value stats →
      statusIncrements kRealtimeTotalRowsUpdated (OnMessageReceived env m callback s).1 =
        [(Status.ok, stats.total_updated_records + stats.total_deleted_records)] ∧
      counterIncrements kRealtimeRealtimeMessageApplicationFailure
        (OnMessageReceived env m callback s).1 = 0) ∧
    (∀ code msg, (callback d s).1 = StatusOr.error code msg →
      counterIncrements kRealtimeRealtimeMessageApplicationFailure
        (OnMessageReceived env m callback s).1 = 1 ∧
      statusIncrements kRealtimeTotalRowsUpdated (OnMessageReceived env m callback s).1 =
        []) := by
  constructor
  · intro stats hc
    rw [onMessageReceived_applied env m callback s d stats h hc]
    constructor
    · rcases recordProducer_cases env m with hp | ⟨v, hp⟩ <;> rw [hp] <;> rfl
    · rcases recordProducer_cases env m with hp | ⟨v, hp⟩ <;> rw [hp] <;> rfl
  · intro code msg hc
    rw [onMessageReceived_failed env m callback s d code msg h hc]
    constructor
    · rcases recordProducer_cases env m with hp | ⟨v, hp⟩ <;> rw [hp] <;> rfl
    · rcases recordProducer_cases env m with hp | ⟨v, hp⟩ <;> rw [hp] <;> rfl

/-- Instance of claim C9: the sample callback updates two rows and deletes one. -/
theorem onMessageReceived_records_outcome_witness :
    (∀ stats, (sampleCallback "hello" 0).1 = StatusOr.value stats →
      statusIncrements kRealtimeTotalRowsUpdated
          (OnMessageReceived sampleMessageEnv sampleMessage sampleCallback 0).1 =
        [(Status.ok, stats.total_updated_records + stats.total_deleted_records)] ∧
      counterIncrements kRealtimeRealtimeMessageApplicationFailure
        (OnMessageReceived sampleMessageEnv sampleMessage sampleCallback 0).1 = 0) ∧
    (∀ code msg, (sampleCallback "hello" 0).1 = StatusOr.error code msg →
      counterIncrements kRealtimeRealtimeMessageApplicationFailure
        (OnMessageReceived sampleMessageEnv sampleMessage sampleCallback 0).1 = 1 ∧
      statusIncrements kRealtimeTotalRowsUpdated
        (OnMessageReceived sampleMessageEnv sampleMessage sampleCallback 0).1 = []) :=
  onMessageReceived_records_outcome sampleMessageEnv sampleMessage sampleCallback 0 "hello"
    (by decide)

/-! ## Properties of `Stop` -/

/-- Claim C10, refuted as stated, in each of its parts.
Never started, both collaborators succeeding: `Stop()` returns OK but does not leave the
notifier as it was, the idle wait, not interrupted before the call, is interrupted after it.
Never started, with a thread manager whose stop fails when no thread runs: `Stop()` does not
return success. Already stopped (started and stopped once, so that the session is still valid
and the wait interrupted): a further `Stop()` does not return success, since the interrupt of
an interrupted wait fails, and it is not without effect, since it cancels the session once
more. -/
theorem stop_never_started_counterexample :
    ((RealtimeNotifierGcp.Stop benignStopEnv
        (RealtimeNotifierGcp.new () { interrupted := false })).1 = Status.ok ∧
      (RealtimeNotifierGcp.new () { interrupted := false }).sleep_for_.interrupted = false ∧
      (RealtimeNotifierGcp.Stop benignStopEnv
        (RealtimeNotifierGcp.new () { interrupted := false })).2.1.sleep_for_.interrupted =
          true ∧
      (RealtimeNotifierGcp.Stop benignStopEnv
        (RealtimeNotifierGcp.new () { interrupted := false })).2.1 ≠
          RealtimeNotifierGcp.new () { interrupted := false }) ∧
    ((RealtimeNotifierGcp.Stop strictStopEnv
        (RealtimeNotifierGcp.new false { interrupted := false })).1 =
          Status.error .failedPrecondition "Not currently running" ∧
      (RealtimeNotifierGcp.Stop strictStopEnv
        (RealtimeNotifierGcp.new false { interrupted := false })).1 ≠ Status.ok) ∧
    (stoppedNotifier =
        { thread_manager_ := false, session_ := { valid := true, cancel_requests := 1 },
          sleep_for_ := { interrupted := true } } ∧
      (RealtimeNotifierGcp.Stop strictStopEnv stoppedNotifier).1 =
        Status.error .failedPrecondition "Already stopped" ∧
      (RealtimeNotifierGcp.Stop strictStopEnv stoppedNotifier).1 ≠ Status.ok ∧
      (RealtimeNotifierGcp.Stop strictStopEnv stoppedNotifier).2.2 =
        [StopEvent.sessionCancel, StopEvent.sleepForStop, StopEvent.threadManagerStop] ∧
      (RealtimeNotifierGcp.Stop strictStopEnv stoppedNotifier).2.1.session_ =
        { valid := true, cancel_requests := 2 } ∧
      (RealtimeNotifierGcp.Stop strictStopEnv stoppedNotifier).2.1 ≠ stoppedNotifier) := by
  decide

/-- Claim C10, amended. `Stop()` on a notifier whose session is not valid (never started)
leaves the session untouched and cancels nothing, but it interrupts the idle wait and calls
the thread manager stop, each exactly once; on a notifier whose wait is already interrupted
(already stopped) the wait is left as it is, while a session that is still valid is cancelled
once more and the thread manager stop is called again. The call returns OK when
`SleepFor::Stop` and the thread manager stop both return OK, and the first non-OK status of
the two otherwise. -/
theorem stop_on_idle_notifier {τ : Type} (env : StopEnv τ) (self : RealtimeNotifierGcp τ) :
    (self.session_.valid = false →
      (RealtimeNotifierGcp.Stop env self).2.1.session_ = self.session_ ∧
      (RealtimeNotifierGcp.Stop env self).2.2 =
        [StopEvent.sleepForStop, StopEvent.threadManagerStop]) ∧
    (RealtimeNotifierGcp.Stop env self).2.1.sleep_for_.interrupted = true ∧
    (self.sleep_for_.interrupted = true →
      (RealtimeNotifierGcp.Stop env self).2.1.sleep_for_ = self.sleep_for_) ∧
    (RealtimeNotifierGcp.Stop env self).2.1.thread_manager_ =
      (env.thread_manager_stop self.thread_manager_).2 ∧
    (RealtimeNotifierGcp.Stop env self).1 =
      (env.sleep_stop_status self.sleep_for_).Update
        (env.thread_manager_stop self.thread_manager_).1 ∧
    ((env.sleep_stop_status self.sleep_for_) = Status.ok →
      (env.thread_manager_stop self.thread_manager_).1 = Status.ok →
      (RealtimeNotifierGcp.Stop env self).1 = Status.ok) ∧
    (self.session_.valid = true →
      (RealtimeNotifierGcp.Stop env self).2.1.session_ =
        { valid := true, cancel_requests := self.session_.cancel_requests + 1 } ∧
      (RealtimeNotifierGcp.Stop env self).2.2 =
        [StopEvent.sessionCancel, StopEvent.sleepForStop, StopEvent.threadManagerStop]) ∧
    ((RealtimeNotifierGcp.Stop env self).1 = Status.ok ↔
      (env.sleep_stop_status self.sleep_for_ = Status.ok ∧
        (env.thread_manager_stop self.thread_manager_).1 = Status.ok)) := by
  refine ⟨?_, rfl, ?_, rfl, rfl, ?_, ?_, ?_⟩
  · intro hv
    simp [RealtimeNotifierGcp.Stop, hv]
  · intro hi
    cases hs : self.sleep_for_ with
    | mk b =>
      rw [hs] at hi
      simp only at hi
      subst hi
      simp [RealtimeNotifierGcp.Stop, SleepFor.Stop]
  · intro h1 h2
    simp [RealtimeNotifierGcp.Stop, SleepFor.Stop, h1, h2, Status.Update]
  · intro hv
    cases hs : self.session_ with
    | mk valid cancel_requests =>
      rw [hs] at hv
      simp only at hv
      subst hv
      simp [RealtimeNotifierGcp.Stop, hs]
  · have hstatus : (RealtimeNotifierGcp.Stop env self).1 =
        (env.sleep_stop_status self.sleep_for_).Update
          (env.thread_manager_stop self.thread_manager_).1 := rfl
    rw [hstatus]
    cases env.sleep_stop_status self.sleep_for_ <;> simp [Status.Update]

/-- Claim C11. `Stop()` returns the first non-OK status among the idle-wait interrupt
(`sleep_for_->Stop()`) and the worker-thread stop (`thread_manager_->Stop()`): it is OK iff
both are OK, it is the status of the interrupt when that one is not OK, and the status of the
thread stop otherwise. Every teardown step is performed whatever the earlier steps returned:
the interrupt and the thread stop are each called exactly once, and the thread manager is
left in the state its stop produced, also when the interrupt failed. -/
theorem stop_returns_first_failure {τ : Type} (env : StopEnv τ)
    (self : RealtimeNotifierGcp τ) :
    ((RealtimeNotifierGcp.Stop env self).1 = Status.ok ↔
      (env.sleep_stop_status self.sleep_for_ = Status.ok ∧
        (env.thread_manager_stop self.thread_manager_).1 = Status.ok)) ∧
    (env.sleep_stop_status self.sleep_for_ ≠ Status.ok →
      (RealtimeNotifierGcp.Stop env self).1 = env.sleep_stop_status self.sleep_for_) ∧
    (env.sleep_stop_status self.sleep_for_ = Status.ok →
      (RealtimeNotifierGcp.Stop env self).1 =
        (env.thread_manager_stop self.thread_manager_).1) ∧
    (RealtimeNotifierGcp.Stop env self).2.2.count StopEvent.sleepForStop = 1 ∧
    (RealtimeNotifierGcp.Stop env self).2.2.count StopEvent.threadManagerStop = 1 ∧
    (RealtimeNotifierGcp.Stop env self).2.1.thread_manager_ =
      (env.thread_manager_stop self.thread_manager_).2 ∧
    (RealtimeNotifierGcp.Stop env self).2.1.sleep_for_.interrupted = true := by
  have hstatus : (RealtimeNotifierGcp.Stop env self).1 =
      (env.sleep_stop_status self.sleep_for_).Update
        (env.thread_manager_stop self.thread_manager_).1 := rfl
  have htrace : (RealtimeNotifierGcp.Stop env self).2.2 =
      (if self.session_.valid then [StopEvent.sessionCancel] else []) ++
        [StopEvent.sleepForStop, StopEvent.threadManagerStop] := by
    unfold RealtimeNotifierGcp.Stop
    cases self.session_.valid <;> rfl
  refine ⟨?_, ?_, ?_, ?_, ?_, rfl, rfl⟩
  · rw [hstatus]
    cases env.sleep_stop_status self.sleep_for_ <;> simp [Status.Update]
  · intro h
    rw [hstatus]
    cases hs : env.sleep_stop_status self.sleep_for_ with
    | ok => exact absurd hs h
    | error c msg => rfl
  · intro h
    rw [hstatus, h]
    rfl
  · rw [htrace]
    cases self.session_.valid <;> decide
  · rw [htrace]
    cases self.session_.valid <;> decide

/-- Instance of claim C11: a second `Stop()` on a notifier whose wait is already interrupted
and whose thread does not run; the interrupt fails and the thread stop is still called. -/
theorem stop_returns_first_failure_witness :
    ((RealtimeNotifierGcp.Stop strictStopEnv
        (RealtimeNotifierGcp.new false { interrupted := true })).1 = Status.ok ↔
      (strictStopEnv.sleep_stop_status
          (RealtimeNotifierGcp.new false { interrupted := true }).sleep_for_ = Status.ok ∧
        (strictStopEnv.thread_manager_stop
          (RealtimeNotifierGcp.new false { interrupted := true }).thread_manager_).1 =
            Status.ok)) ∧
    (strictStopEnv.sleep_stop_status
        (RealtimeNotifierGcp.new false { interrupted := true }).sleep_for_ ≠ Status.ok →
      (RealtimeNotifierGcp.Stop strictStopEnv
        (RealtimeNotifierGcp.new false { interrupted := true })).1 =
        strictStopEnv.sleep_stop_status
          (RealtimeNotifierGcp.new false { interrupted := true }).sleep_for_) ∧
    (strictStopEnv.sleep_stop_status
        (RealtimeNotifierGcp.new false { interrupted := true }).sleep_for_ = Status.ok →
      (RealtimeNotifierGcp.Stop strictStopEnv
        (RealtimeNotifierGcp.new false { interrupted := true })).1 =
        (strictStopEnv.thread_manager_stop
          (RealtimeNotifierGcp.new false { interrupted := true }).thread_manager_).1) ∧
    (RealtimeNotifierGcp.Stop strictStopEnv
      (RealtimeNotifierGcp.new false { interrupted := true })).2.2.count
        StopEvent.sleepForStop = 1 ∧
    (RealtimeNotifierGcp.Stop strictStopEnv
      (RealtimeNotifierGcp.new false { interrupted := true })).2.2.count
        StopEvent.threadManagerStop = 1 ∧
    (RealtimeNotifierGcp.Stop strictStopEnv
      (RealtimeNotifierGcp.new false { interrupted := true })).2.1.thread_manager_ =
      (strictStopEnv.thread_manager_stop
        (RealtimeNotifierGcp.new false { interrupted := true }).thread_manager_).2 ∧
    (RealtimeNotifierGcp.Stop strictStopEnv
      (RealtimeNotifierGcp.new false { interrupted := true })).2.1.sleep_for_.interrupted =
        true :=
  stop_returns_first_failure strictStopEnv
    (RealtimeNotifierGcp.new false { interrupted := true })

/-- Claim C17. Every call of `Stop()` performs its steps in this order: cancel the stored
session, which is done iff the stored session handle is valid, then interrupt the idle wait,
then stop the worker thread. In the trace of the call every step comes strictly before the
steps of a later position, so the session is never cancelled after the wait is interrupted
and the thread is never stopped before the wait is interrupted. -/
theorem stop_steps_in_order {τ : Type} (env : StopEnv τ) (self : RealtimeNotifierGcp τ) :
    (RealtimeNotifierGcp.Stop env self).2.2 =
      (if self.session_.valid then [StopEvent.sessionCancel] else []) ++
        [StopEvent.sleepForStop, StopEvent.threadManagerStop] ∧
    (StopEvent.sessionCancel ∈ (RealtimeNotifierGcp.Stop env self).2.2 ↔
      self.session_.valid = true) ∧
    (RealtimeNotifierGcp.Stop env self).2.1.session_.cancel_requests =
      self.session_.cancel_requests + (if self.session_.valid then 1 else 0) ∧
    (RealtimeNotifierGcp.Stop env self).2.2.Pairwise
      (fun a b => a.position < b.position) := by
  have htrace : (RealtimeNotifierGcp.Stop env self).2.2 =
      (if self.session_.valid then [StopEvent.sessionCancel] else []) ++
        [StopEvent.sleepForStop, StopEvent.threadManagerStop] := by
    unfold RealtimeNotifierGcp.Stop
    cases self.session_.valid <;> rfl
  refine ⟨htrace, ?_, ?_, ?_⟩
  · rw [htrace]
    cases self.session_.valid <;> simp
  · unfold RealtimeNotifierGcp.Stop
    cases self.session_.valid <;> simp
  · rw [htrace]
    cases self.session_.valid <;> simp [StopEvent.position]

/-- The histogram observations and the acknowledgement of `OnMessageReceived` on a payload
that decodes, when the producer-supplied latency recorder records nothing. -/
theorem onMessageReceived_producer_skipped {σ : Type} (env : MessageEnv) (m : Message)
    (callback : String → σ → StatusOr DataLoadingStats × σ) (s : σ) (d : String)
    (h : env.Base64Unescape m.data = some d)
    (hp : RecordProducerSuppliedE2ELatency env m = []) :
    histogramObservations kReceivedLowLatencyNotificationsE2EGcpProvided
        (OnMessageReceived env m callback s).1 =
      [ToInt64Microseconds (env.now_gcp - m.publish_time)] ∧
    histogramObservations kReceivedLowLatencyNotificationsE2E
        (OnMessageReceived env m callback s).1 = [] ∧
    acks (OnMessageReceived env m callback s).1 = 1 := by
  cases hc : (callback d s).1 with
  | value stats =>
    rw [onMessageReceived_applied env m callback s d stats h hc, hp]
    exact ⟨rfl, rfl, rfl⟩
  | error code msg =>
    rw [onMessageReceived_failed env m callback s d code msg h hc, hp]
    exact ⟨rfl, rfl, rfl⟩

/-- The histogram observations of `OnMessageReceived` on a payload that decodes, when the
producer-supplied latency recorder records the value `v`. -/
theorem onMessageReceived_producer_recorded {σ : Type} (env : MessageEnv) (m : Message)
    (callback : String → σ → StatusOr DataLoadingStats × σ) (s : σ) (d : String) (v : Int)
    (h : env.Base64Unescape m.data = some d)
    (hp : RecordProducerSuppliedE2ELatency env m =
      [NotifierEvent.recordHistogramEvent kReceivedLowLatencyNotificationsE2E v]) :
    histogramObservations kReceivedLowLatencyNotificationsE2EGcpProvided
        (OnMessageReceived env m callback s).1 =
      [ToInt64Microseconds (env.now_gcp - m.publish_time)] ∧
    histogramObservations kReceivedLowLatencyNotificationsE2E
        (OnMessageReceived env m callback s).1 = [v] := by
  cases hc : (callback d s).1 with
  | value stats =>
    rw [onMessageReceived_applied env m callback s d stats h hc, hp]
    exact ⟨rfl, rfl⟩
  | error code msg =>
    rw [onMessageReceived_failed env m callback s d code msg h hc, hp]
    exact ⟨rfl, rfl⟩

/-- Claim C12. For every message whose payload decodes, whatever the apply callback returns,
the transport publish-time latency is recorded as exactly one histogram observation, and the
producer-supplied latency is recorded as exactly one histogram observation iff the message
has a `time_sent` attribute that is non-empty and that `SimpleAtoi` parses as an `int64`;
the observation then is the time elapsed since that value, in microseconds. With an absent,
empty or unparsable attribute nothing is recorded for it, and the message is acknowledged all
the same. -/
theorem onMessageReceived_latencies {σ : Type} (env : MessageEnv) (m : Message)
    (callback : String → σ → StatusOr DataLoadingStats × σ) (s : σ) (d : String)
    (h : env.Base64Unescape m.data = some d) :
    histogramObservations kReceivedLowLatencyNotificationsE2EGcpProvided
        (OnMessageReceived env m callback s).1 =
      [ToInt64Microseconds (env.now_gcp - m.publish_time)] ∧
    ((histogramObservations kReceivedLowLatencyNotificationsE2E
        (OnMessageReceived env m callback s).1).length = 1 ↔
      ∃ time_sent value, m.attributes "time_sent" = some time_sent ∧ time_sent ≠ "" ∧
        env.SimpleAtoi time_sent = some value) ∧
    (∀ time_sent value, m.attributes "time_sent" = some time_sent → time_sent ≠ "" →
      env.SimpleAtoi time_sent = some value →
      histogramObservations kReceivedLowLatencyNotificationsE2E
          (OnMessageReceived env m callback s).1 =
        [ToInt64Microseconds (env.now_producer - value)]) ∧
    ((m.attributes "time_sent" = none ∨ m.attributes "time_sent" = some "" ∨
        ∃ time_sent, m.attributes "time_sent" = some time_sent ∧
          env.SimpleAtoi time_sent = none) →
      histogramObservations kReceivedLowLatencyNotificationsE2E
          (OnMessageReceived env m callback s).1 = [] ∧
      acks (OnMessageReceived env m callback s).1 = 1) := by
  cases hattr : m.attributes "time_sent" with
  | none =>
    have hp : RecordProducerSuppliedE2ELatency env m = [] := by
      simp [RecordProducerSuppliedE2ELatency, hattr]
    obtain ⟨hg, he, ha⟩ := onMessageReceived_producer_skipped env m callback s d h hp
    refine ⟨hg, ?_, ?_, fun _ => ⟨he, ha⟩⟩
    · rw [he]
      constructor
      · intro hlen; simp at hlen
      · rintro ⟨t, v, ht, -, -⟩; simp at ht
    · intro t v ht; simp at ht
  | some t =>
    by_cases ht : t = ""
    · have hp : RecordProducerSuppliedE2ELatency env m = [] := by
        simp [RecordProducerSuppliedE2ELatency, hattr, ht]
      obtain ⟨hg, he, ha⟩ := onMessageReceived_producer_skipped env m callback s d h hp
      refine ⟨hg, ?_, ?_, fun _ => ⟨he, ha⟩⟩
      · rw [he]
        constructor
        · intro hlen; simp at hlen
        · rintro ⟨t2, v, ht2, hne, -⟩
          injection ht2 with ht2
          exact absurd (ht2 ▸ ht) hne
      · intro t2 v ht2 hne
        injection ht2 with ht2
        exact absurd (ht2 ▸ ht) hne
    · cases hatoi : env.SimpleAtoi t with
      | none =>
        have hp : RecordProducerSuppliedE2ELatency env m = [] := by
          simp [RecordProducerSuppliedE2ELatency, hattr, ht, hatoi]
        obtain ⟨hg, he, ha⟩ := onMessageReceived_producer_skipped env m callback s d h hp
        refine ⟨hg, ?_, ?_, fun _ => ⟨he, ha⟩⟩
        · rw [he]
          constructor
          · intro hlen; simp at hlen
          · rintro ⟨t2, v, ht2, -, hv⟩
            injection ht2 with ht2
            subst ht2
            rw [hatoi] at hv
            simp at hv
        · intro t2 v ht2 _ hv
          injection ht2 with ht2
          subst ht2
          rw [hatoi] at hv
          simp at hv
      | some value =>
        have hp : RecordProducerSuppliedE2ELatency env m =
            [NotifierEvent.recordHistogramEvent kReceivedLowLatencyNotificationsE2E
              (ToInt64Microseconds (env.now_producer - value))] := by
          simp [RecordProducerSuppliedE2ELatency, hattr, ht, hatoi]
        obtain ⟨hg, he⟩ := onMessageReceived_producer_recorded env m callback s d _ h hp
        refine ⟨hg, ?_, ?_, ?_⟩
        · rw [he]
          exact ⟨fun _ => ⟨t, value, rfl, ht, hatoi⟩, fun _ => rfl⟩
        · intro t2 v ht2 _ hv
          injection ht2 with ht2
          subst ht2
          rw [hatoi] at hv
          injection hv with hv
          rw [he, hv]
        · rintro (hnone | hempty | ⟨t2, ht2, hv⟩)
          · simp at hnone
          · injection hempty with hempty
            exact absurd hempty ht
          · injection ht2 with ht2
            subst ht2
            rw [hatoi] at hv
            simp at hv

/-- Instance of claim C12: the sample message carries `time_sent = 1000`, which parses. -/
theorem onMessageReceived_latencies_witness :
    histogramObservations kReceivedLowLatencyNotificationsE2EGcpProvided
        (OnMessageReceived sampleMessageEnv sampleMessage sampleCallback 0).1 =
      [ToInt64Microseconds (sampleMessageEnv.now_gcp - sampleMessage.publish_time)] ∧
    ((histogramObservations kReceivedLowLatencyNotificationsE2E
        (OnMessageReceived sampleMessageEnv sampleMessage sampleCallback 0).1).length = 1 ↔
      ∃ time_sent value, sampleMessage.attributes "time_sent" = some time_sent ∧
        time_sent ≠ "" ∧ sampleMessageEnv.SimpleAtoi time_sent = some value) ∧
    (∀ time_sent value, sampleMessage.attributes "time_sent" = some time_sent →
      time_sent ≠ "" → sampleMessageEnv.SimpleAtoi time_sent = some value →
      histogramObservations kReceivedLowLatencyNotificationsE2E
          (OnMessageReceived sampleMessageEnv sampleMessage sampleCallback 0).1 =
        [ToInt64Microseconds (sampleMessageEnv.now_producer - value)]) ∧
    ((sampleMessage.attributes "time_sent" = none ∨
        sampleMessage.attributes "time_sent" = some "" ∨
        ∃ time_sent, sampleMessage.attributes "time_sent" = some time_sent ∧
          sampleMessageEnv.SimpleAtoi time_sent = none) →
      histogramObservations kReceivedLowLatencyNotificationsE2E
          (OnMessageReceived sampleMessageEnv sampleMessage sampleCallback 0).1 = [] ∧
      acks (OnMessageReceived sampleMessageEnv sampleMessage sampleCallback 0).1 = 1) :=
  onMessageReceived_latencies sampleMessageEnv sampleMessage sampleCallback 0 "hello"
    (by decide)

/-- Claim C20. For every message whose payload is not valid base64, the only call of the
metrics recorder made by `OnMessageReceived` itself (the scope-latency recorder apart) is the
single decode-failure increment: there is no rows-updated event, no application-failure
increment, and neither of the two end-to-end latency histograms receives an observation. -/
theorem onMessageReceived_decode_failure_frame {σ : Type} (env : MessageEnv) (m : Message)
    (callback : String → σ → StatusOr DataLoadingStats × σ) (s : σ)
    (h : env.Base64Unescape m.data = none) :
    (OnMessageReceived env m callback s).1.filter NotifierEvent.isMetricCall =
      [NotifierEvent.incrementEventCounter kRealtimeDecodeRealtimeMessageFailure] ∧
    statusIncrements kRealtimeTotalRowsUpdated (OnMessageReceived env m callback s).1 = [] ∧
    counterIncrements kRealtimeRealtimeMessageApplicationFailure
      (OnMessageReceived env m callback s).1 = 0 ∧
    histogramObservations kReceivedLowLatencyNotificationsE2EGcpProvided
      (OnMessageReceived env m callback s).1 = [] ∧
    histogramObservations kReceivedLowLatencyNotificationsE2E
      (OnMessageReceived env m callback s).1 = [] := by
  rw [onMessageReceived_undecodable env m callback s h]
  exact ⟨rfl, rfl, rfl, rfl, rfl⟩

/-- Instance of claim C20: a payload that is not base64. -/
theorem onMessageReceived_decode_failure_frame_witness :
    (OnMessageReceived sampleMessageEnv malformedMessage sampleCallback 0).1.filter
        NotifierEvent.isMetricCall =
      [NotifierEvent.incrementEventCounter kRealtimeDecodeRealtimeMessageFailure] ∧
    statusIncrements kRealtimeTotalRowsUpdated
      (OnMessageReceived sampleMessageEnv malformedMessage sampleCallback 0).1 = [] ∧
    counterIncrements kRealtimeRealtimeMessageApplicationFailure
      (OnMessageReceived sampleMessageEnv malformedMessage sampleCallback 0).1 = 0 ∧
    histogramObservations kReceivedLowLatencyNotificationsE2EGcpProvided
      (OnMessageReceived sampleMessageEnv malformedMessage sampleCallback 0).1 = [] ∧
    histogramObservations kReceivedLowLatencyNotificationsE2E
      (OnMessageReceived sampleMessageEnv malformedMessage sampleCallback 0).1 = [] :=
  onMessageReceived_decode_failure_frame sampleMessageEnv malformedMessage sampleCallback 0
    (by decide)

/-! ## The shape of every run of the retry engine that returns -/

theorem metricEvents_append {α : Type} (a b : List (RetryEvent α)) :
    metricEvents (a ++ b) = metricEvents a ++ metricEvents b := by
  induction a with
  | nil => rfl
  | cons e a ih => cases e <;> simp [metricEvents, List.append_eq, ih]

theorem failedInvocations_append {α : Type} (a b : List (RetryEvent α)) :
    failedInvocations (a ++ b) = failedInvocations a + failedInvocations b := by
  induction a with
  | nil => simp [failedInvocations]
  | cons e a ih =>
    cases e
    · simp only [List.cons_append, failedInvocations, List.append_eq, ih]; omega
    · simp only [List.cons_append, failedInvocations, List.append_eq, ih]
    · simp only [List.cons_append, failedInvocations, List.append_eq, ih]

theorem metricEvents_attempt {α : Type} (r : RetryableWithMax α) (k : Nat) :
    metricEvents (r.attempt k) =
      if r.metrics_recorder_ then [(r.task_name_, (r.func_ k).status)] else [] := by
  unfold RetryableWithMax.attempt
  cases r.metrics_recorder_ <;> rfl

theorem failedInvocations_attempt {α : Type} (r : RetryableWithMax α) (k : Nat) :
    failedInvocations (r.attempt k) = if (r.func_ k).isOk then 0 else 1 := by
  unfold RetryableWithMax.attempt
  cases r.metrics_recorder_ <;> simp [failedInvocations]

theorem rounds_snoc {α : Type} (r : RetryableWithMax α) (j : Nat) :
    ∀ c, r.rounds c (j + 1) =
      r.rounds c j ++ (r.attempt (c + j + 1) ++
        [RetryEvent.sleep (r.ExponentialBackoffForRetry (c + j + 1))]) := by
  induction j with
  | zero => intro c; simp [rounds_succ, rounds_zero]
  | succ j ih =>
    intro c
    rw [rounds_succ, ih (c + 1), rounds_succ]
    have e : c + 1 + j + 1 = c + (j + 1) + 1 := by omega
    rw [e]
    simp only [List.append_assoc]

theorem metricEvents_rounds {α : Type} (r : RetryableWithMax α) (j : Nat) :
    metricEvents (r.rounds 0 j) =
      if r.metrics_recorder_ then
        (List.range j).map (fun t => (r.task_name_, (r.func_ (t + 1)).status))
      else [] := by
  induction j with
  | zero => rw [rounds_zero]; cases r.metrics_recorder_ <;> rfl
  | succ j ih =>
    rw [rounds_snoc, metricEvents_append, metricEvents_append, metricEvents_attempt, ih]
    cases r.metrics_recorder_
    · rfl
    · simp [metricEvents, List.range_succ]

theorem failedInvocations_rounds {α : Type} (r : RetryableWithMax α) (j : Nat)
    (hfail : ∀ k, 1 ≤ k → k ≤ j → (r.func_ k).isOk = false) :
    failedInvocations (r.rounds 0 j) = j := by
  induction j with
  | zero => rfl
  | succ j ih =>
    rw [rounds_snoc, failedInvocations_append, failedInvocations_append,
      failedInvocations_attempt, ih (fun k h1 h2 => hfail k h1 (by omega))]
    have h := hfail (j + 1) (by omega) (Nat.le_refl _)
    simp only [Nat.zero_add]
    rw [h]
    simp [failedInvocations]

/-- From the loop condition with counter `c + 1`, reached after `c` failed rounds, a loop
that returns ends after some number `n >= c` of failed rounds, or with a successful attempt
`n + 1` after them. -/
theorem loop_shape {α : Type} (r : RetryableWithMax α) :
    ∀ (fuel c : Nat) (result res : StatusOr α) (tr : List (RetryEvent α)),
      (∀ k, 1 ≤ k → k ≤ c → (r.func_ k).isOk = false) →
      r.loop fuel (c + 1) result (r.rounds 0 c) = some (res, tr) →
      ∃ n, (∀ k, 1 ≤ k → k ≤ n → (r.func_ k).isOk = false) ∧
        (tr = r.rounds 0 n ∨
          (tr = r.rounds 0 n ++ r.attempt (n + 1) ∧ (r.func_ (n + 1)).isOk = true)) := by
  intro fuel
  induction fuel with
  | zero =>
    intro c result res tr _ h
    simp [RetryableWithMax.loop] at h
  | succ fuel ih =>
    intro c result res tr hfail h
    have hi := invocations_rounds r c 0
    have hw := waits_rounds_length r c 0
    by_cases hmax : r.max_attempts_ = kUnlimitedRetry ∨ ((c + 1 : Nat) : Int) ≤ r.max_attempts_
    · cases hok : (r.func_ (c + 1)).isOk with
      | true =>
        rw [loop_ok r fuel (c + 1) result _ hmax (by rw [hi]; exact hok), hi] at h
        injection h with h
        injection h with _ h
        exact ⟨c, hfail, Or.inr ⟨h.symm, hok⟩⟩
      | false =>
        have hfail2 : ∀ k, 1 ≤ k → k ≤ c + 1 → (r.func_ k).isOk = false := by
          intro k h1 h2
          by_cases hk : k ≤ c
          · exact hfail k h1 hk
          · have : k = c + 1 := by omega
            rw [this]; exact hok
        cases hs : r.sleep_for_ (c + 1) (r.ExponentialBackoffForRetry (c + 1)) with
        | false =>
          rw [loop_cancelled r fuel (c + 1) result _ hmax (by rw [hi]; exact hok)
            (by rw [hw]; exact hs), hi] at h
          injection h with h
          injection h with _ h
          refine ⟨c + 1, hfail2, Or.inl ?_⟩
          rw [← h, rounds_snoc]
          simp
        | true =>
          rw [loop_continue r fuel (c + 1) result _ hmax (by rw [hi]; exact hok)
            (by rw [hw]; exact hs), hi] at h
          have e : r.rounds 0 c ++ (r.attempt (c + 1) ++
              [RetryEvent.sleep (r.ExponentialBackoffForRetry (c + 1))]) =
              r.rounds 0 (c + 1) := by
            rw [rounds_snoc]
            simp
          rw [e] at h
          exact ih (c + 1) _ res tr hfail2 h
    · rw [loop_exit r fuel (c + 1) result _ hmax] at h
      injection h with h
      injection h with _ h
      exact ⟨c, hfail, Or.inl h.symm⟩

/-- Every run of `operator()` that returns consists of `n` failed rounds, each an attempt
followed by its backoff wait, possibly followed by one successful attempt. -/
theorem run_shape {α : Type} (r : RetryableWithMax α) (fuel : Nat) (res : StatusOr α)
    (tr : List (RetryEvent α)) (h : r.run fuel = some (res, tr)) :
    ∃ n, (∀ k, 1 ≤ k → k ≤ n → (r.func_ k).isOk = false) ∧
      (tr = r.rounds 0 n ∨
        (tr = r.rounds 0 n ++ r.attempt (n + 1) ∧ (r.func_ (n + 1)).isOk = true)) :=
  loop_shape r fuel 0 r.default_result res tr (fun k h1 h2 => by omega) h

/-- Claim C15. In every run of `RetryableWithMax::operator()` that returns: when a metrics
recorder is configured, the recorded outcome events are, in order, one event per invocation
of the functor, keyed by `task_name_` and carrying the status of that invocation, for the
failed attempts and for the final successful attempt alike; when no recorder is configured,
nothing is recorded. -/
theorem retry_records_each_attempt {α : Type} (r : RetryableWithMax α) (fuel : Nat)
    (res : StatusOr α) (tr : List (RetryEvent α)) (h : r.run fuel = some (res, tr)) :
    metricEvents tr =
      if r.metrics_recorder_ then
        (List.range (invocations tr)).map (fun t => (r.task_name_, (r.func_ (t + 1)).status))
      else [] := by
  obtain ⟨n, -, hshape⟩ := run_shape r fuel res tr h
  rcases hshape with htr | ⟨htr, -⟩
  · rw [htr, metricEvents_rounds, invocations_rounds]
  · rw [htr, metricEvents_append, metricEvents_rounds, metricEvents_attempt,
      invocations_append, invocations_rounds, invocations_attempt]
    cases r.metrics_recorder_
    · rfl
    · simp [List.range_succ]

/-- Instance of claim C15: two failures and a success, recorded as three events. -/
theorem retry_records_each_attempt_witness :
    ∃ res tr, (RetryableWithMax.new (failsThenOk 2) "task" 5 true neverStopped
        doublingBackoff defaultStatusOr).run 3 = some (res, tr) ∧
      metricEvents tr =
        [("task", Status.error .unavailable "backend down"),
         ("task", Status.error .unavailable "backend down"),
         ("task", Status.ok)] ∧
      metricEvents tr =
        if (RetryableWithMax.new (failsThenOk 2) "task" 5 true neverStopped
          doublingBackoff defaultStatusOr).metrics_recorder_ then
          (List.range (invocations tr)).map (fun t =>
            ((RetryableWithMax.new (failsThenOk 2) "task" 5 true neverStopped
              doublingBackoff defaultStatusOr).task_name_,
             ((RetryableWithMax.new (failsThenOk 2) "task" 5 true neverStopped
              doublingBackoff defaultStatusOr).func_ (t + 1)).status))
        else [] :=
  ⟨_, _, rfl, rfl, retry_records_each_attempt _ 3 _ _ rfl⟩

/-- Claim C16. In every run of `RetryableWithMax::operator()` that returns, the run is a
sequence of failed rounds, the `k`-th being attempt `k` followed by the wait
`ExponentialBackoffForRetry(k)`, possibly followed by one successful attempt: the counter
starts at 1, the durations requested are `ExponentialBackoffForRetry(1)`,
`ExponentialBackoffForRetry(2)`, ... in that order, and there is one wait for each failed
attempt. -/
theorem retry_backoff_sequence {α : Type} (r : RetryableWithMax α) (fuel : Nat)
    (res : StatusOr α) (tr : List (RetryEvent α)) (h : r.run fuel = some (res, tr)) :
    waits tr =
      (List.range (waits tr).length).map (fun t => r.ExponentialBackoffForRetry (t + 1)) ∧
    (waits tr).length = failedInvocations tr ∧
    ∃ n, (tr = r.rounds 0 n ∨ tr = r.rounds 0 n ++ r.attempt (n + 1)) ∧
      (waits tr).length = n := by
  obtain ⟨n, hfail, hshape⟩ := run_shape r fuel res tr h
  have hw : waits (r.rounds 0 n) =
      (List.range n).map (fun t => r.ExponentialBackoffForRetry (t + 1)) := by
    rw [waits_rounds]
    apply List.map_congr_left
    intro t _
    simp only [Nat.zero_add]
    congr 1
    omega
  rcases hshape with htr | ⟨htr, hok⟩
  · have hlen : (waits tr).length = n := by rw [htr, waits_rounds_length]
    refine ⟨?_, ?_, n, Or.inl htr, hlen⟩
    · rw [hlen, htr, hw]
    · rw [hlen, htr, failedInvocations_rounds r n hfail]
  · have hlen : (waits tr).length = n := by
      rw [htr, waits_append, waits_attempt, List.append_nil, waits_rounds_length]
    refine ⟨?_, ?_, n, Or.inr htr, hlen⟩
    · rw [hlen, htr, waits_append, waits_attempt, List.append_nil, hw]
    · rw [hlen, htr, failedInvocations_append, failedInvocations_rounds r n hfail,
        failedInvocations_attempt, hok]
      rfl

/-- Instance of claim C16: three failed attempts are followed by waits of 2, 4 and 8
seconds. -/
theorem retry_backoff_sequence_witness :
    ∃ res tr, (RetryableWithMax.new alwaysUnavailable "task" 3 false neverStopped
        doublingBackoff defaultStatusOr).run 4 = some (res, tr) ∧
      waits tr = [Duration.nanos 2000000000, Duration.nanos 4000000000,
        Duration.nanos 8000000000] ∧
      (waits tr =
        (List.range (waits tr).length).map (fun t =>
          (RetryableWithMax.new alwaysUnavailable "task" 3 false neverStopped
            doublingBackoff defaultStatusOr).ExponentialBackoffForRetry (t + 1)) ∧
      (waits tr).length = failedInvocations tr ∧
      ∃ n, (tr = (RetryableWithMax.new alwaysUnavailable "task" 3 false neverStopped
            doublingBackoff defaultStatusOr).rounds 0 n ∨
          tr = (RetryableWithMax.new alwaysUnavailable "task" 3 false neverStopped
            doublingBackoff defaultStatusOr).rounds 0 n ++
            (RetryableWithMax.new alwaysUnavailable "task" 3 false neverStopped
            doublingBackoff defaultStatusOr).attempt (n + 1)) ∧
        (waits tr).length = n) :=
  ⟨_, _, rfl, rfl, retry_backoff_sequence _ 4 _ _ rfl⟩

/-! ## Properties of the notifier lifecycle -/

theorem start_keeps_wait {τ : Type} (thread_manager_start : τ → Status × τ × Bool)
    (self : RealtimeNotifierGcp τ) :
    (self.Start thread_manager_start).2.1.sleep_for_ = self.sleep_for_ := by
  unfold RealtimeNotifierGcp.Start
  dsimp only
  split <;> rfl

theorem after_keeps_interrupted {τ : Type} (thread_manager_start : τ → Status × τ × Bool)
    (env : StopEnv τ) (calls : List LifecycleCall) :
    ∀ self : RealtimeNotifierGcp τ, self.sleep_for_.interrupted = true →
      (self.after thread_manager_start env calls).sleep_for_.interrupted = true := by
  induction calls with
  | nil => intro self h; exact h
  | cons call calls ih =>
    intro self h
    cases call with
    | start =>
      exact ih _ (by rw [start_keeps_wait]; exact h)
    | stop =>
      exact ih _ rfl

/-- Claim C19. A `RealtimeNotifierGcp` keeps the wait object it was constructed with and no
method resets it: `Start` and `Watch` leave it as it is and `Stop` interrupts it. Hence once
`Stop()` has been called, also before any `Start`, and whatever lifecycle calls follow, the
idle wait is interrupted. A later `Start` whose thread manager runs the worker then has the
worker subscribe, store the new valid session, and return from `Watch` at once, its idle wait
reporting `interrupted` instead of blocking; a `Start` whose thread manager refuses to run
the worker has no worker effect at all. The worker of a notifier whose wait has not been
interrupted blocks in that wait. -/
theorem watch_after_stop_does_not_block {τ : Type}
    (thread_manager_start : τ → Status × τ × Bool) (env : StopEnv τ)
    (self : RealtimeNotifierGcp τ) (calls : List LifecycleCall) :
    (self.Watch).1.sleep_for_ = self.sleep_for_ ∧
    (self.Start thread_manager_start).2.1.sleep_for_ = self.sleep_for_ ∧
    (((self.Stop env).2.1.after thread_manager_start env calls).sleep_for_.interrupted
      = true) ∧
    (((self.Stop env).2.1.after thread_manager_start env calls).Watch).2 =
      [WatchEvent.subscribe, WatchEvent.idleWait WaitOutcome.interrupted] ∧
    (((self.Stop env).2.1.after thread_manager_start env calls).Watch).1.session_.valid
      = true ∧
    WatchEvent.idleWait WaitOutcome.blocked ∉
      (((self.Stop env).2.1.after thread_manager_start env calls).Start
        thread_manager_start).2.2 ∧
    ((RealtimeNotifierGcp.new self.thread_manager_ { interrupted := false }).Watch).2 =
      [WatchEvent.subscribe, WatchEvent.idleWait WaitOutcome.blocked] ∧
    ((thread_manager_start
        ((self.Stop env).2.1.after thread_manager_start env calls).thread_manager_).2.2
        = true →
      (((self.Stop env).2.1.after thread_manager_start env calls).Start
        thread_manager_start).2.2 =
        [WatchEvent.subscribe, WatchEvent.idleWait WaitOutcome.interrupted] ∧
      (((self.Stop env).2.1.after thread_manager_start env calls).Start
        thread_manager_start).2.1.session_ = { valid := true, cancel_requests := 0 } ∧
      (((self.Stop env).2.1.after thread_manager_start env calls).Start
        thread_manager_start).2.1.sleep_for_.interrupted = true) ∧
    ((thread_manager_start
        ((self.Stop env).2.1.after thread_manager_start env calls).thread_manager_).2.2
        = false →
      (((self.Stop env).2.1.after thread_manager_start env calls).Start
        thread_manager_start).2.2 = []) ∧
    ((thread_manager_start self.thread_manager_).2.2 = true →
      self.sleep_for_.interrupted = false →
      (self.Start thread_manager_start).2.2 =
        [WatchEvent.subscribe, WatchEvent.idleWait WaitOutcome.blocked]) := by
  have hint := after_keeps_interrupted thread_manager_start env calls (self.Stop env).2.1 rfl
  have hwatch : (((self.Stop env).2.1.after thread_manager_start env calls).Watch).2 =
      [WatchEvent.subscribe, WatchEvent.idleWait WaitOutcome.interrupted] := by
    simp [RealtimeNotifierGcp.Watch, SleepFor.Duration, hint]
  refine ⟨rfl, start_keeps_wait _ _, hint, hwatch, rfl, ?_, rfl, ?_, ?_, ?_⟩
  · unfold RealtimeNotifierGcp.Start
    dsimp only
    split
    · simp [RealtimeNotifierGcp.Watch, SleepFor.Duration, hint]
    · simp
  · intro hrun
    refine ⟨?_, ?_, ?_⟩
    · simp [RealtimeNotifierGcp.Start, hrun, RealtimeNotifierGcp.Watch, SleepFor.Duration,
        hint]
    · simp [RealtimeNotifierGcp.Start, hrun, RealtimeNotifierGcp.Watch]
    · rw [start_keeps_wait]
      exact hint
  · intro hrun
    simp [RealtimeNotifierGcp.Start, hrun]
  · intro hrun hfresh
    simp [RealtimeNotifierGcp.Start, hrun, RealtimeNotifierGcp.Watch, SleepFor.Duration,
      hfresh]

/-- Instance of claim C19: the worker of the first `Start` blocks in the idle wait; after
`Stop`, the thread manager runs the worker of the second `Start`, which subscribes and
returns from `Watch` at once. -/
theorem watch_after_stop_does_not_block_witness :
    ((RealtimeNotifierGcp.new false { interrupted := false }).Start
        spawningThreadManager).2.2 =
      [WatchEvent.subscribe, WatchEvent.idleWait WaitOutcome.blocked] ∧
    ((((RealtimeNotifierGcp.new false { interrupted := false }).Start
        spawningThreadManager).2.1.Stop strictStopEnv).2.1.after spawningThreadManager
        strictStopEnv []).Start spawningThreadManager =
      (Status.ok,
        { thread_manager_ := true, session_ := { valid := true, cancel_requests := 0 },
          sleep_for_ := { interrupted := true } },
        [WatchEvent.subscribe, WatchEvent.idleWait WaitOutcome.interrupted]) ∧
    (((((RealtimeNotifierGcp.new false { interrupted := false }).Start
        spawningThreadManager).2.1.Stop strictStopEnv).2.1.after spawningThreadManager
        strictStopEnv []).Start spawningThreadManager).2.2 =
      [WatchEvent.subscribe, WatchEvent.idleWait WaitOutcome.interrupted] :=
  ⟨by decide, by decide,
    ((watch_after_stop_does_not_block spawningThreadManager strictStopEnv
      ((RealtimeNotifierGcp.new false { interrupted := false }).Start
        spawningThreadManager).2.1 []).2.2.2.2.2.2.2.1 (by decide)).1⟩

/-! ## Properties of the serving cache -/

theorem apply_other_key (c : KeyValueCache) (m : Mutation) (key : String)
    (h : m.key ≠ key) : (c.apply m).entries key = c.entries key := by
  have h2 : ¬ key = m.key := fun e => h e.symm
  cases m with
  | update k v t =>
    simp only [Mutation.key] at h2
    simp only [KeyValueCache.apply, KeyValueCache.UpdateKeyValue]
    split
    · simp [h2]
    · rfl
  | delete k t =>
    simp only [Mutation.key] at h2
    simp only [KeyValueCache.apply, KeyValueCache.DeleteKey]
    split
    · simp [h2]
    · rfl

theorem apply_admitted (c : KeyValueCache) (m : Mutation)
    (h : c.admits m.key m.logical_commit_time = true) :
    ∃ e, (c.apply m).entries m.key = some e ∧
      e.logical_commit_time = m.logical_commit_time := by
  cases m with
  | update k v t =>
    simp only [Mutation.key, Mutation.logical_commit_time] at h
    exact ⟨{ value := v, logical_commit_time := t, tombstone := false },
      by simp [KeyValueCache.apply, KeyValueCache.UpdateKeyValue, h, Mutation.key], rfl⟩
  | delete k t =>
    simp only [Mutation.key, Mutation.logical_commit_time] at h
    exact ⟨{ value := "", logical_commit_time := t, tombstone := true },
      by simp [KeyValueCache.apply, KeyValueCache.DeleteKey, h, Mutation.key], rfl⟩

theorem apply_rejected (c : KeyValueCache) (m : Mutation)
    (h : c.admits m.key m.logical_commit_time = false) : c.apply m = c := by
  cases m with
  | update k v t =>
    simp only [Mutation.key, Mutation.logical_commit_time] at h
    simp [KeyValueCache.apply, KeyValueCache.UpdateKeyValue, h]
  | delete k t =>
    simp only [Mutation.key, Mutation.logical_commit_time] at h
    simp [KeyValueCache.apply, KeyValueCache.DeleteKey, h]

theorem admits_false_iff (c : KeyValueCache) (key : String) (t : Int) :
    c.admits key t = false ↔ ∃ e, c.entries key = some e ∧ t ≤ e.logical_commit_time := by
  unfold KeyValueCache.admits
  cases h : c.entries key with
  | none => simp
  | some e => simp

/-- One mutation: the entry of its key ends with a time that is at least the time of the
mutation and at least the time stored before, and it is the old entry or carries the time of
the mutation. -/
theorem apply_same_key (c : KeyValueCache) (m : Mutation) :
    (∃ e, (c.apply m).entries m.key = some e ∧
      m.logical_commit_time ≤ e.logical_commit_time) ∧
    (∀ e0, c.entries m.key = some e0 → ∃ e, (c.apply m).entries m.key = some e ∧
      e0.logical_commit_time ≤ e.logical_commit_time) ∧
    (∀ e, (c.apply m).entries m.key = some e →
      c.entries m.key = some e ∨ e.logical_commit_time = m.logical_commit_time) := by
  cases h : c.admits m.key m.logical_commit_time with
  | true =>
    obtain ⟨e, he, ht⟩ := apply_admitted c m h
    refine ⟨⟨e, he, by omega⟩, ?_, ?_⟩
    · intro e0 h0
      refine ⟨e, he, ?_⟩
      unfold KeyValueCache.admits at h
      rw [h0] at h
      simp at h
      omega
    · intro e2 h2
      rw [he] at h2
      injection h2 with h2
      exact Or.inr (h2 ▸ ht)
  | false =>
    rw [apply_rejected c m h]
    obtain ⟨e, he, ht⟩ := (admits_false_iff c m.key m.logical_commit_time).mp h
    exact ⟨⟨e, he, ht⟩, fun e0 h0 => ⟨e0, h0, Int.le_refl _⟩, fun e2 h2 => Or.inl h2⟩

/-- A sequence of mutations: the time stored for a key is at least the time stored before and
at least every time observed for the key, and the entry is the initial one or carries one of
the observed times. -/
theorem applyAll_stored_time (key : String) (ms : List Mutation) :
    ∀ c : KeyValueCache,
      (∀ e0, c.entries key = some e0 → ∃ e, (c.applyAll ms).entries key = some e ∧
        e0.logical_commit_time ≤ e.logical_commit_time) ∧
      (∀ t ∈ observedTimes key ms, ∃ e, (c.applyAll ms).entries key = some e ∧
        t ≤ e.logical_commit_time) ∧
      (∀ e, (c.applyAll ms).entries key = some e →
        c.entries key = some e ∨ e.logical_commit_time ∈ observedTimes key ms) := by
  induction ms with
  | nil =>
    intro c
    refine ⟨fun e0 h0 => ⟨e0, h0, Int.le_refl _⟩, ?_, fun e h => Or.inl h⟩
    intro t ht
    simp [observedTimes] at ht
  | cons m ms ih =>
    intro c
    obtain ⟨ih1, ih2, ih3⟩ := ih (c.apply m)
    by_cases hk : m.key = key
    · have hobs : observedTimes key (m :: ms) =
          m.logical_commit_time :: observedTimes key ms := by
        simp [observedTimes, hk]
      obtain ⟨s1, s2, s3⟩ := apply_same_key c m
      rw [hk] at s1 s2 s3
      refine ⟨?_, ?_, ?_⟩
      · intro e0 h0
        obtain ⟨e1, he1, hle1⟩ := s2 e0 h0
        obtain ⟨e, he, hle⟩ := ih1 e1 he1
        exact ⟨e, he, by omega⟩
      · intro t ht
        rw [hobs] at ht
        rcases List.mem_cons.mp ht with rfl | ht
        · obtain ⟨e1, he1, hle1⟩ := s1
          obtain ⟨e, he, hle⟩ := ih1 e1 he1
          exact ⟨e, he, by omega⟩
        · exact ih2 t ht
      · intro e he
        rw [hobs]
        rcases ih3 e he with h | h
        · rcases s3 e h with h2 | h2
          · exact Or.inl h2
          · exact Or.inr (List.mem_cons.mpr (Or.inl h2))
        · exact Or.inr (List.mem_cons.mpr (Or.inr h))
    · have hobs : observedTimes key (m :: ms) = observedTimes key ms := by
        simp [observedTimes, hk]
      have hsame := apply_other_key c m key hk
      rw [hobs]
      rw [hsame] at ih1 ih3
      exact ⟨ih1, ih2, ih3⟩

theorem admits_true_iff (c : KeyValueCache) (key : String) (t : Int) :
    c.admits key t = true ↔
      (c.entries key = none ∨ ∃ e, c.entries key = some e ∧ e.logical_commit_time < t) := by
  unfold KeyValueCache.admits
  cases h : c.entries key with
  | none => simp
  | some e => simp

/-- Claim C13. For the serving cache, as the specification describes it: a mutation
(`UpdateKeyValue` or `DeleteKey`) changes the entry of its key iff its `logical_commit_time`
is strictly greater than the one stored for that key or the key has no entry, and it never
changes the entry of another key; hence after every sequence of mutations the stored
`logical_commit_time` of a key is at least the one stored initially and at least every time
observed for that key, and it is the initial one or one of those observed (on a cache created
empty: the maximum observed). In particular `update(k, v1, 5)` then `update(k, v2, 3)` leaves
`get({k})` returning `v1`. -/
theorem cache_keeps_newest (c : KeyValueCache) (m : Mutation) (ms : List Mutation)
    (key k v1 v2 : String) :
    ((c.apply m).entries m.key ≠ c.entries m.key ↔
      (c.entries m.key = none ∨
        ∃ e, c.entries m.key = some e ∧ e.logical_commit_time < m.logical_commit_time)) ∧
    (∀ other, m.key ≠ other → (c.apply m).entries other = c.entries other) ∧
    (∀ e0, c.entries key = some e0 → ∃ e, (c.applyAll ms).entries key = some e ∧
      e0.logical_commit_time ≤ e.logical_commit_time) ∧
    (∀ t ∈ observedTimes key ms, ∃ e, (c.applyAll ms).entries key = some e ∧
      t ≤ e.logical_commit_time) ∧
    (∀ e, (c.applyAll ms).entries key = some e →
      c.entries key = some e ∨ e.logical_commit_time ∈ observedTimes key ms) ∧
    (∀ e, (KeyValueCache.Create.applyAll ms).entries key = some e →
      e.logical_commit_time ∈ observedTimes key ms ∧
      ∀ t ∈ observedTimes key ms, t ≤ e.logical_commit_time) ∧
    ((KeyValueCache.Create.UpdateKeyValue k v1 5).UpdateKeyValue k v2 3).GetKeyValuePairs
      [k] k = some v1 := by
  obtain ⟨a1, a2, a3⟩ := applyAll_stored_time key ms c
  obtain ⟨-, b2, b3⟩ := applyAll_stored_time key ms KeyValueCache.Create
  refine ⟨?_, fun other h => apply_other_key c m other h, a1, a2, a3, ?_, ?_⟩
  · rw [← admits_true_iff]
    constructor
    · intro hne
      cases h : c.admits m.key m.logical_commit_time with
      | true => rfl
      | false => rw [apply_rejected c m h] at hne; exact absurd rfl hne
    · intro h heq
      obtain ⟨e, he, ht⟩ := apply_admitted c m h
      rw [heq] at he
      rcases (admits_true_iff c m.key m.logical_commit_time).mp h with hn | ⟨e2, he2, hlt⟩
      · rw [hn] at he; simp at he
      · rw [he2] at he
        injection he with he
        rw [he] at hlt
        omega
  · intro e he
    rcases b3 e he with h | h
    · simp [KeyValueCache.Create] at h
    · refine ⟨h, fun t ht => ?_⟩
      obtain ⟨e2, he2, hle⟩ := b2 t ht
      rw [he] at he2
      injection he2 with he2
      rw [he2]
      exact hle
  · simp [KeyValueCache.GetKeyValuePairs, KeyValueCache.UpdateKeyValue, KeyValueCache.admits,
      KeyValueCache.Create]

/-- Instance of claim C13: `update(k, v1, 5)` then `update(k, v2, 3)` on an empty cache. -/
theorem cache_keeps_newest_witness :
    (((KeyValueCache.Create.UpdateKeyValue "k" "v1" 5).apply (Mutation.update "k" "v2" 3)).entries
        (Mutation.update "k" "v2" 3).key ≠
      (KeyValueCache.Create.UpdateKeyValue "k" "v1" 5).entries (Mutation.update "k" "v2" 3).key ↔
      ((KeyValueCache.Create.UpdateKeyValue "k" "v1" 5).entries
          (Mutation.update "k" "v2" 3).key = none ∨
        ∃ e, (KeyValueCache.Create.UpdateKeyValue "k" "v1" 5).entries
            (Mutation.update "k" "v2" 3).key = some e ∧
          e.logical_commit_time < (Mutation.update "k" "v2" 3).logical_commit_time)) ∧
    ((KeyValueCache.Create.applyAll
        [Mutation.update "k" "v1" 5, Mutation.update "k" "v2" 3]).entries "k" =
      some { value := "v1", logical_commit_time := 5, tombstone := false }) ∧
    ((KeyValueCache.Create.UpdateKeyValue "k" "v1" 5).UpdateKeyValue "k" "v2" 3).GetKeyValuePairs
      ["k"] "k" = some "v1" :=
  ⟨(cache_keeps_newest (KeyValueCache.Create.UpdateKeyValue "k" "v1" 5)
      (Mutation.update "k" "v2" 3) [] "k" "k" "v1" "v2").1,
    by decide,
    (cache_keeps_newest KeyValueCache.Create (Mutation.update "k" "v1" 5) [] "k" "k" "v1"
      "v2").2.2.2.2.2.2⟩

/-! ## Properties of the instance client -/

/-- Claim C14. `GetEnvironmentTag`, `GetShardNumTag` and `GetInstanceId` each return OK only
with a non-empty string. If the cached member is non-empty it is returned without any call
of `GetInstanceDetails` and the client is left as it was. Otherwise exactly one call of
`GetInstanceDetails` is made: if it fails, its status is returned as is; if it succeeds and
the member is still empty, the getter returns an Unavailable failure; if it succeeds and the
member is non-empty, that string is returned. No path makes a second call. -/
theorem getter_returns_cached_or_looks_up_once (instance_client : InstanceClientInterface)
    (self : GcpInstanceClient) (field : IdentityField) :
    (∀ v after lookups,
      self.getter instance_client field = some (StatusOr.value v, after, lookups) →
        v ≠ "") ∧
    (∀ result after lookups,
      self.getter instance_client field = some (result, after, lookups) → lookups ≤ 1) ∧
    (self.cached field ≠ "" →
      self.getter instance_client field =
        some (StatusOr.value (self.cached field), self, 0)) ∧
    (self.cached field = "" → ∀ status after,
      self.GetInstanceDetails instance_client = some (status, after) →
      (∀ code message, status = Status.error code message →
        self.getter instance_client field = some (StatusOr.error code message, after, 1)) ∧
      (status = Status.ok → after.cached field = "" →
        ∃ message, self.getter instance_client field =
          some (StatusOr.error .unavailable message, after, 1)) ∧
      (status = Status.ok → after.cached field ≠ "" →
        self.getter instance_client field =
          some (StatusOr.value (after.cached field), after, 1))) := by
  cases field
  all_goals
    simp only [GcpInstanceClient.getter, GcpInstanceClient.cached,
      GcpInstanceClient.GetEnvironmentTag, GcpInstanceClient.GetShardNumTag,
      GcpInstanceClient.GetInstanceId]
    refine ⟨?_, ?_, ?_, ?_⟩
    · intro v after lookups h
      split at h
      · simp at h
      · simp [StatusOr.ofError] at h
      · split at h
        · simp [StatusOr.ofError] at h
        · simp only [Option.some.injEq, Prod.mk.injEq, StatusOr.value.injEq] at h
          obtain ⟨hv, ha, -⟩ := h
          subst ha
          subst hv
          assumption
    · intro result after lookups h
      split at h
      · simp at h
      · rename_i heq
        simp only [Option.some.injEq, Prod.mk.injEq] at h
        obtain ⟨-, -, hl⟩ := h
        subst hl
        split at heq
        · cases hd : self.GetInstanceDetails instance_client with
          | none => rw [hd] at heq; simp at heq
          | some r =>
            rw [hd] at heq
            simp only [Option.map_some', Option.some.injEq, Prod.mk.injEq] at heq
            omega
        · simp only [Option.some.injEq, Prod.mk.injEq] at heq
          obtain ⟨-, -, hl⟩ := heq
          omega
      · rename_i heq
        split at heq
        · cases hd : self.GetInstanceDetails instance_client with
          | none => rw [hd] at heq; simp at heq
          | some r =>
            rw [hd] at heq
            simp only [Option.map_some', Option.some.injEq, Prod.mk.injEq] at heq
            split at h <;>
              (simp only [Option.some.injEq, Prod.mk.injEq] at h; omega)
        · simp only [Option.some.injEq, Prod.mk.injEq] at heq
          split at h <;>
            (simp only [Option.some.injEq, Prod.mk.injEq] at h; omega)
    · intro h
      simp [h]
    · intro h status after hd
      refine ⟨?_, ?_, ?_⟩
      · intro code message hs
        subst hs
        simp [h, hd, StatusOr.ofError]
      · intro hs hempty
        subst hs
        simp [h, hd, hempty, StatusOr.ofError]
      · intro hs hne
        subst hs
        simp [h, hd, hne]

/-- Instance of claim C14: a client without cached members looks the details up once and
returns the environment label it found. -/
theorem getter_returns_cached_or_looks_up_once_witness :
    freshInstanceClient.getter sampleInstanceClient IdentityField.environment =
      some (StatusOr.value "prod",
        { instance_id_ := "1234", environment_ := "prod", shard_number_ := "0" }, 1) :=
  ((getter_returns_cached_or_looks_up_once sampleInstanceClient freshInstanceClient
      IdentityField.environment).2.2.2 rfl Status.ok
      { instance_id_ := "1234", environment_ := "prod", shard_number_ := "0" } rfl).2.2
    rfl (by decide)

/-! ## Properties of the data-loading record callback -/

/-- Claim C18. The record callback of `BM_LoadDataIntoCache` validates before it mutates: for
every raw record, if the schema verification fails or the mutation type is neither `Update`
nor `Delete`, it returns InvalidArgument and makes no call on the cache; otherwise it makes
exactly one call on the cache, of the matching kind (`UpdateKeyValue` with the key, value and
logical commit time of the record for `Update`, `DeleteKey` with the key and logical commit
time of the record for `Delete`), and returns OK. -/
theorem recordCallback_validates_before_mutating (fb : Flatbuffers) (raw : String)
    (num_records_read : Nat) :
    ((fb.Verify raw = false ∨ ∃ underlying,
        (fb.GetRoot raw).mutation_type = DeltaMutationType.other underlying) →
      (∃ message, (BM_LoadDataIntoCache.recordCallback fb raw num_records_read).1 =
        Status.error .invalidArgument message) ∧
      (BM_LoadDataIntoCache.recordCallback fb raw num_records_read).2.1 = []) ∧
    (fb.Verify raw = true → (fb.GetRoot raw).mutation_type = DeltaMutationType.Update →
      (BM_LoadDataIntoCache.recordCallback fb raw num_records_read).1 = Status.ok ∧
      (BM_LoadDataIntoCache.recordCallback fb raw num_records_read).2.1 =
        [CacheCall.UpdateKeyValue (fb.GetRoot raw).key (fb.GetRoot raw).value
          (fb.GetRoot raw).logical_commit_time]) ∧
    (fb.Verify raw = true → (fb.GetRoot raw).mutation_type = DeltaMutationType.Delete →
      (BM_LoadDataIntoCache.recordCallback fb raw num_records_read).1 = Status.ok ∧
      (BM_LoadDataIntoCache.recordCallback fb raw num_records_read).2.1 =
        [CacheCall.DeleteKey (fb.GetRoot raw).key (fb.GetRoot raw).logical_commit_time]) := by
  refine ⟨?_, ?_, ?_⟩
  · rintro (hv | ⟨underlying, ht⟩)
    · simp [BM_LoadDataIntoCache.recordCallback, hv]
    · cases hv : fb.Verify raw
      · simp [BM_LoadDataIntoCache.recordCallback, hv]
      · simp [BM_LoadDataIntoCache.recordCallback, hv, ht]
  · intro hv ht
    simp [BM_LoadDataIntoCache.recordCallback, hv, ht]
  · intro hv ht
    simp [BM_LoadDataIntoCache.recordCallback, hv, ht]

/-- Instance of claim C18: a verified update record makes one `UpdateKeyValue` call. -/
theorem recordCallback_validates_before_mutating_witness :
    (BM_LoadDataIntoCache.recordCallback sampleFlatbuffers "raw-update" 0).1 = Status.ok ∧
    (BM_LoadDataIntoCache.recordCallback sampleFlatbuffers "raw-update" 0).2.1 =
      [CacheCall.UpdateKeyValue (sampleFlatbuffers.GetRoot "raw-update").key
        (sampleFlatbuffers.GetRoot "raw-update").value
        (sampleFlatbuffers.GetRoot "raw-update").logical_commit_time] :=
  (recordCallback_validates_before_mutating sampleFlatbuffers "raw-update" 0).2.1
    (by decide) (by decide)

/-- Instance of the amended claim C10: `Stop()` on a notifier that was never started. -/
theorem stop_on_idle_notifier_witness :
    (RealtimeNotifierGcp.Stop benignStopEnv
        (RealtimeNotifierGcp.new () { interrupted := false })).2.1.session_ =
      (RealtimeNotifierGcp.new () { interrupted := false }).session_ ∧
    (RealtimeNotifierGcp.Stop benignStopEnv
        (RealtimeNotifierGcp.new () { interrupted := false })).2.2 =
      [StopEvent.sleepForStop, StopEvent.threadManagerStop] :=
  (stop_on_idle_notifier benignStopEnv (RealtimeNotifierGcp.new () { interrupted := false })).1
    rfl

/-! ## Properties of `DescribeInstances` -/

/-- When `GetInstanceId` returns a value, that value is the member `instance_id_` the client
is left with, and it is not empty. -/
theorem getInstanceId_value (instance_client : InstanceClientInterface)
    (self after : GcpInstanceClient) (id : String) (lookups : Nat)
    (h : self.GetInstanceId instance_client = some (StatusOr.value id, after, lookups)) :
    id = after.instance_id_ ∧ id ≠ "" := by
  simp only [GcpInstanceClient.GetInstanceId] at h
  split at h
  · simp at h
  · simp [StatusOr.ofError] at h
  · split at h
    · simp [StatusOr.ofError] at h
    · simp only [Option.some.injEq, Prod.mk.injEq, StatusOr.value.injEq] at h
      obtain ⟨hv, ha, -⟩ := h
      subst ha
      subst hv
      exact ⟨rfl, by assumption⟩

/-- Claim C21. `GcpInstanceClient::DescribeInstances` ignores its `instance_ids` argument:
any two sets of ids give the same result. When `GetInstanceId` fails, that failure is
returned; when `GetInstanceId` returns an id, the result is a list of exactly one
`InstanceInfo`, whose `id` is that id, the non-empty `instance_id_` of the current instance,
and whose other members are value-initialized. The call returns whenever `GetInstanceId`
does, and every result it returns is of one of these two kinds. -/
theorem describeInstances_ignores_ids (instance_client : InstanceClientInterface)
    (value_initialized : InstanceInfo) (self : GcpInstanceClient)
    (instance_ids other_ids : List String) :
    self.DescribeInstances instance_client value_initialized instance_ids =
      self.DescribeInstances instance_client value_initialized other_ids ∧
    (∀ code message after lookups,
      self.GetInstanceId instance_client =
        some (StatusOr.error code message, after, lookups) →
      self.DescribeInstances instance_client value_initialized instance_ids =
        some (StatusOr.error code message, after, lookups)) ∧
    (∀ id after lookups,
      self.GetInstanceId instance_client = some (StatusOr.value id, after, lookups) →
      self.DescribeInstances instance_client value_initialized instance_ids =
        some (StatusOr.value [{ value_initialized with id := id }], after, lookups) ∧
      id = after.instance_id_ ∧ id ≠ "") ∧
    (∀ result after lookups,
      self.DescribeInstances instance_client value_initialized instance_ids =
        some (result, after, lookups) →
      (∃ code message, result = StatusOr.error code message ∧
        self.GetInstanceId instance_client =
          some (StatusOr.error code message, after, lookups)) ∨
      (∃ info, result = StatusOr.value [info] ∧ info.id = after.instance_id_ ∧
        info.id ≠ "" ∧ info = { value_initialized with id := info.id })) := by
  refine ⟨rfl, ?_, ?_, ?_⟩
  · intro code message after lookups h
    simp [GcpInstanceClient.DescribeInstances, h, StatusOr.ofError]
  · intro id after lookups h
    exact ⟨by simp [GcpInstanceClient.DescribeInstances, h],
      getInstanceId_value instance_client self after id lookups h⟩
  · intro result after lookups h
    cases hid : self.GetInstanceId instance_client with
    | none => simp [GcpInstanceClient.DescribeInstances, hid] at h
    | some r =>
      obtain ⟨res, st, n⟩ := r
      cases res with
      | error code message =>
        simp only [GcpInstanceClient.DescribeInstances, hid, StatusOr.ofError,
          Option.some.injEq, Prod.mk.injEq] at h
        obtain ⟨hr, hs, hn⟩ := h
        subst hr; subst hs; subst hn
        exact Or.inl ⟨code, message, rfl, rfl⟩
      | value id =>
        obtain ⟨h1, h2⟩ := getInstanceId_value instance_client self st id n hid
        simp only [GcpInstanceClient.DescribeInstances, hid, Option.some.injEq,
          Prod.mk.injEq] at h
        obtain ⟨hr, hs, hn⟩ := h
        subst hr; subst hs; subst hn
        exact Or.inr ⟨{ value_initialized with id := id }, rfl, h1, h2, rfl⟩

/-- Instance of claim C21: asked for two other instances, a client without cached members
returns the one `InstanceInfo` of the current instance; asked for none, it returns the same;
and with a library that rejects the lookup it returns that failure. -/
theorem describeInstances_ignores_ids_witness :
    freshInstanceClient.DescribeInstances sampleInstanceClient emptyInstanceInfo
        ["5678", "9012"] =
      some (StatusOr.value
        [{ id := "1234", service_status := InstanceServiceStatus.kUnknown,
           private_ip_address := "", labels := [] }],
        { instance_id_ := "1234", environment_ := "prod", shard_number_ := "0" }, 1) ∧
    freshInstanceClient.DescribeInstances sampleInstanceClient emptyInstanceInfo
        ["5678", "9012"] =
      freshInstanceClient.DescribeInstances sampleInstanceClient emptyInstanceInfo [] ∧
    freshInstanceClient.DescribeInstances rejectingInstanceClient emptyInstanceInfo
        ["5678", "9012"] =
      some (StatusOr.error .internal "metadata server unreachable", freshInstanceClient, 1) :=
  ⟨((describeInstances_ignores_ids sampleInstanceClient emptyInstanceInfo freshInstanceClient
      ["5678", "9012"] []).2.2.1 "1234"
      { instance_id_ := "1234", environment_ := "prod", shard_number_ := "0" } 1 rfl).1,
    (describeInstances_ignores_ids sampleInstanceClient emptyInstanceInfo freshInstanceClient
      ["5678", "9012"] []).1,
    (describeInstances_ignores_ids rejectingInstanceClient emptyInstanceInfo
      freshInstanceClient ["5678", "9012"] []).2.1 .internal "metadata server unreachable"
      freshInstanceClient 1 rfl⟩

end kv_server
